import Mathlib

/-!
# Clothoids: the curve object of `Clothoid.hh`

A shallow embedding of `G2lib::ClothoidCurve` (src/src/Clothoid.hh), of the
helpers of `G2lib.hh`, and of the command handlers of
`mex_ClothoidCurveMexWrapper.cc`.

`real_type` is embedded as an arbitrary field `K`: every definition is
computable at `K = ℚ` and the theorems hold at `K = ℝ`.  Rounding of IEEE
doubles is outside the model.  A mutating member function becomes a function
from the receiver to the updated receiver.
-/

namespace G2lib

/-! ## Data model -/

/-- The five canonical parameters of a clothoid.  The C++ type is declared in
`Fresnel.hh`; the fields are the ones `Clothoid.hh` reads and writes through
`CD.x0`, `CD.y0`, `CD.theta0`, `CD.kappa0` and `CD.dk`. -/
structure ClothoidData (K : Type) where
  x0 : K
  y0 : K
  theta0 : K
  kappa0 : K
  dk : K
deriving DecidableEq

/-- The private members of `class ClothoidCurve`: `ClothoidData CD` and the
length `real_type L`. -/
structure ClothoidCurve (K : Type) where
  CD : ClothoidData K
  L : K
deriving DecidableEq

/-- The members of `LineSegment` (declared in `Line.hh`) that
`Clothoid.hh` reads. -/
structure LineSegment (K : Type) where
  x0 : K
  y0 : K
  theta0 : K
  L : K
deriving DecidableEq

/-- The members of `CircleArc` (declared in `Circle.hh`) that
`Clothoid.hh` reads. -/
structure CircleArc (K : Type) where
  x0 : K
  y0 : K
  theta0 : K
  k : K
  L : K
deriving DecidableEq

variable {K : Type}

/-! ## `ClothoidData` evaluation -/

/-- Modelled from the spec: `ClothoidData::kappa(s)`, defined in `Fresnel.hh`
which is not among the sources; the spec gives
"Curvature(s) = kappa0 + dk·s". -/
def ClothoidData.kappa [Field K] (cd : ClothoidData K) (s : K) : K :=
  cd.kappa0 + cd.dk * s

/-- Modelled from the spec: `ClothoidData::theta(s)`, defined in `Fresnel.hh`
which is not among the sources; the spec gives
"heading(s) = theta0 + kappa0·s + dk·s²/2". -/
def ClothoidData.theta [Field K] (cd : ClothoidData K) (s : K) : K :=
  cd.theta0 + cd.kappa0 * s + cd.dk * s ^ 2 / 2

namespace ClothoidCurve

/-! ## Constructors and `build` -/

/-- `ClothoidCurve()`: every parameter is set to zero. -/
def default [Field K] : ClothoidCurve K :=
  { CD := { x0 := 0, y0 := 0, theta0 := 0, kappa0 := 0, dk := 0 }, L := 0 }

/-- `ClothoidCurve(_x0,_y0,_theta0,_k,_dk,_L)`: the six-parameter
constructor. -/
def mk6 (_x0 _y0 _theta0 _k _dk _L : K) : ClothoidCurve K :=
  { CD := { x0 := _x0, y0 := _y0, theta0 := _theta0, kappa0 := _k, dk := _dk },
    L := _L }

/-- `build(_x0,_y0,_theta0,_k,_dk,_L)`: overwrites the six members of the
receiver `c`. -/
def build (c : ClothoidCurve K) (_x0 _y0 _theta0 _k _dk _L : K) :
    ClothoidCurve K :=
  { c with
    CD := { c.CD with x0 := _x0, y0 := _y0, theta0 := _theta0, kappa0 := _k,
                      dk := _dk },
    L := _L }

/-- `ClothoidCurve(LineSegment const & LS)`. -/
def ofLineSegment [Field K] (LS : LineSegment K) : ClothoidCurve K :=
  { CD := { x0 := LS.x0, y0 := LS.y0, theta0 := LS.theta0, kappa0 := 0,
            dk := 0 },
    L := LS.L }

/-- `ClothoidCurve(CircleArc const & C)`. -/
def ofCircleArc [Field K] (C : CircleArc K) : ClothoidCurve K :=
  { CD := { x0 := C.x0, y0 := C.y0, theta0 := C.theta0, kappa0 := C.k,
            dk := 0 },
    L := C.L }

/-- `build(LineSegment const & LS)` on the receiver `c`. -/
def buildLineSegment [Field K] (c : ClothoidCurve K) (LS : LineSegment K) :
    ClothoidCurve K :=
  { c with
    CD := { c.CD with x0 := LS.x0, y0 := LS.y0, theta0 := LS.theta0,
                      kappa0 := 0, dk := 0 },
    L := LS.L }

/-- `build(CircleArc const & C)` on the receiver `c`. -/
def buildCircleArc [Field K] (c : ClothoidCurve K) (C : CircleArc K) :
    ClothoidCurve K :=
  { c with
    CD := { c.CD with x0 := C.x0, y0 := C.y0, theta0 := C.theta0,
                      kappa0 := C.k, dk := 0 },
    L := C.L }

/-! ## Accessors -/

/-- `kappa(s)` returns `CD.kappa(s)`. -/
def kappa [Field K] (c : ClothoidCurve K) (s : K) : K := c.CD.kappa s

/-- `kappa_D(s)` returns `CD.dk`. -/
def kappa_D (c : ClothoidCurve K) (_s : K) : K := c.CD.dk

/-- `kappa_DD(s)` returns `0`. -/
def kappa_DD [Field K] (_c : ClothoidCurve K) (_s : K) : K := 0

/-- `kappa_DDD(s)` returns `0`. -/
def kappa_DDD [Field K] (_c : ClothoidCurve K) (_s : K) : K := 0

/-- `dkappa()` returns `CD.dk`. -/
def dkappa (c : ClothoidCurve K) : K := c.CD.dk

/-- `length()` returns `L`. -/
def length (c : ClothoidCurve K) : K := c.L

/-- `kappaBegin()` returns `CD.kappa0`. -/
def kappaBegin (c : ClothoidCurve K) : K := c.CD.kappa0

/-- `kappaEnd()` returns `CD.kappa(L)`. -/
def kappaEnd [Field K] (c : ClothoidCurve K) : K := c.CD.kappa c.L

/-- `thetaBegin()` returns `CD.theta0`. -/
def thetaBegin (c : ClothoidCurve K) : K := c.CD.theta0

/-- `thetaEnd()` returns `CD.theta(L)`. -/
def thetaEnd [Field K] (c : ClothoidCurve K) : K := c.CD.theta c.L

/-- `xBegin()` returns `CD.x0`. -/
def xBegin (c : ClothoidCurve K) : K := c.CD.x0

/-- `yBegin()` returns `CD.y0`. -/
def yBegin (c : ClothoidCurve K) : K := c.CD.y0

/-- `theta(s)` returns `CD.theta(s)`. -/
def theta [Field K] (c : ClothoidCurve K) (s : K) : K := c.CD.theta s

/-- `theta_D(s)` returns `CD.kappa(s)`. -/
def theta_D [Field K] (c : ClothoidCurve K) (s : K) : K := c.CD.kappa s

/-- `theta_DD(s)` returns `CD.dk`. -/
def theta_DD (c : ClothoidCurve K) (_s : K) : K := c.CD.dk

/-- `theta_DDD(s)` returns `0`. -/
def theta_DDD [Field K] (_c : ClothoidCurve K) (_s : K) : K := 0

/-! ## Transforms -/

/-- `translate(tx,ty)`: `CD.x0 += tx; CD.y0 += ty;`. -/
def translate [Field K] (c : ClothoidCurve K) (tx ty : K) : ClothoidCurve K :=
  { c with CD := { c.CD with x0 := c.CD.x0 + tx, y0 := c.CD.y0 + ty } }

/-- `scale(s)`: `CD.kappa0 /= s; CD.dk /= s*s; L *= s;`. -/
def scale [Field K] (c : ClothoidCurve K) (s : K) : ClothoidCurve K :=
  { c with
    CD := { c.CD with kappa0 := c.CD.kappa0 / s, dk := c.CD.dk / (s * s) },
    L := c.L * s }

/-- `changeOrigin(newx0,newy0)`: `CD.x0 = newx0; CD.y0 = newy0;`. -/
def changeOrigin (c : ClothoidCurve K) (newx0 newy0 : K) : ClothoidCurve K :=
  { c with CD := { c.CD with x0 := newx0, y0 := newy0 } }

/-- `rotate(angle,cx,cy)` is `CD.rotate(angle,cx,cy)`.  `ClothoidData::rotate`
is defined in `Fresnel.hh`, which is not among the sources: it is the
parameter `CD_rotate`, receiver first.  The member `L` is not touched. -/
def rotate (CD_rotate : ClothoidData K → K → K → K → ClothoidData K)
    (c : ClothoidCurve K) (angle cx cy : K) : ClothoidCurve K :=
  { c with CD := CD_rotate c.CD angle cx cy }

/-- Modelled from the spec: `reverse()` is `CD.reverse(L)`, and
`ClothoidData::reverse` is defined in `Fresnel.hh`, which is not among the
sources: it is the parameter `CD_reverse`, receiver first.  By the spec
"`reverse(L)` yields parameters for the curve traversed oppositely over the
same length", so `L` is read and not written. -/
def reverse (CD_reverse : ClothoidData K → K → ClothoidData K)
    (c : ClothoidCurve K) : ClothoidCurve K :=
  { c with CD := CD_reverse c.CD c.L }

/-- `trim(s_begin,s_end)`: `CD.origin_at(s_begin); L = s_end - s_begin;`.
`ClothoidData::origin_at` is defined in `Fresnel.hh`, which is not among the
sources: it is the parameter `origin_at`, receiver first. -/
def trim [Field K] (origin_at : ClothoidData K → K → ClothoidData K)
    (c : ClothoidCurve K) (s_begin s_end : K) : ClothoidCurve K :=
  { c with CD := origin_at c.CD s_begin, L := s_end - s_begin }

/-- `changeCurvilinearOrigin(s0,newL)`: `CD.origin_at(s0); L = newL;`. -/
def changeCurvilinearOrigin (origin_at : ClothoidData K → K → ClothoidData K)
    (c : ClothoidCurve K) (s0 newL : K) : ClothoidCurve K :=
  { c with CD := origin_at c.CD s0, L := newL }

end ClothoidCurve

/-! ## Assertions and the offset-dependent length -/

/-- The exception `std::runtime_error`, with the text `what()` returns. -/
structure runtime_error where
  what : String
deriving DecidableEq

/-- The text the macro `G2LIB_ASSERT` streams into `ost`:
`"On line: " << __LINE__ << " file: " << __FILE__ << '\n' << MSG << '\n'`. -/
def G2LIB_ASSERT_text (line : Nat) (file : String) (MSG : String) : String :=
  "On line: " ++ toString line ++ " file: " ++ file ++ "\n" ++ MSG ++ "\n"

/-- `G2LIB_ASSERT(COND,MSG)` of `G2lib.hh`: when `COND` is false a
`std::runtime_error` with the streamed text is thrown.  The expansion site
gives `__LINE__` and `__FILE__`. -/
def G2LIB_ASSERT (line : Nat) (file : String) (COND : Bool) (MSG : String) :
    Except runtime_error Unit :=
  if !COND then throw ⟨G2LIB_ASSERT_text line file MSG⟩ else pure ()

namespace ClothoidCurve

/-- `length(real_type)`:
`G2LIB_ASSERT( false, "Offset length not available for Clothoids" ); return 0;`
The assertion stands on line 709 of `Clothoid.hh`; `file` is the value of
`__FILE__` in the build. -/
def length_offs [Field K] (file : String) (_c : ClothoidCurve K) (_offs : K) :
    Except runtime_error K := do
  G2LIB_ASSERT 709 file false "Offset length not available for Clothoids"
  return 0

end ClothoidCurve

/-! ## The G1 Hermite solve -/

/-- Modelled from the spec: what one call of `ClothoidData::build_G1` (defined
outside the sources at hand) leaves behind when it returns.  By the spec the output is
"(kappa0, dk, L) exactly connecting the poses, plus iteration count": `iter` is
the returned `int`, `CD` the receiver after the call, `L` the value written
through `real_type & L`, and `L_D`, `k_D`, `dk_D` the two-entry sensitivity
arrays.  Whether an exhausted iteration budget shows in `iter` or is thrown is
not fixed here. -/
structure G1Result (K : Type) where
  iter : Int
  CD : ClothoidData K
  L : K
  L_D : K × K
  k_D : K × K
  dk_D : K × K
deriving DecidableEq

/-- Modelled from the spec: the interface of `ClothoidData::build_G1`.  The
arguments are the receiver, `x0 y0 theta0 x1 y1 theta1 tol`, the value of `L`
on entry and the flag asking for the sensitivities.  The call either returns
(a `G1Result`, whose `iter` is the returned `int`) or throws. -/
abbrev G1Solver (K : Type) : Type :=
  ClothoidData K → K → K → K → K → K → K → K → K → Bool →
    Except runtime_error (G1Result K)

/-- The default argument `tol = 1e-12` of `build_G1` and `build_G1_D`. -/
def build_G1_tol [Field K] : K := 1e-12

namespace ClothoidCurve

/-- `build_G1(x0,y0,theta0,x1,y1,theta1,tol)`:
`return CD.build_G1( x0, y0, theta0, x1, y1, theta1, tol, L );`
The pair is the returned `int` and the receiver after the call. -/
def build_G1 (solver : G1Solver K) (c : ClothoidCurve K)
    (x0 y0 theta0 x1 y1 theta1 tol : K) :
    Except runtime_error (Int × ClothoidCurve K) := do
  let r ← solver c.CD x0 y0 theta0 x1 y1 theta1 tol c.L false
  return (r.iter, { c with CD := r.CD, L := r.L })

/-- The three output arrays `L_D[2]`, `k_D[2]`, `dk_D[2]` of `build_G1_D`. -/
structure G1Sensitivity (K : Type) where
  L_D : K × K
  k_D : K × K
  dk_D : K × K
deriving DecidableEq

/-- `build_G1_D(x0,y0,theta0,x1,y1,theta1,L_D,k_D,dk_D,tol)`:
`return CD.build_G1( x0, y0, theta0, x1, y1, theta1, tol, L, true, L_D, k_D, dk_D );`
-/
def build_G1_D (solver : G1Solver K) (c : ClothoidCurve K)
    (x0 y0 theta0 x1 y1 theta1 tol : K) :
    Except runtime_error (Int × ClothoidCurve K × G1Sensitivity K) := do
  let r ← solver c.CD x0 y0 theta0 x1 y1 theta1 tol c.L true
  return (r.iter, { c with CD := r.CD, L := r.L },
    { L_D := r.L_D, k_D := r.k_D, dk_D := r.dk_D })

/-- `ClothoidCurve(P0,theta0,P1,theta1)`: the body is
`build_G1( P0[0], P0[1], theta0, P1[0], P1[1], theta1 );` as a statement, so
the returned `int` is dropped.  `CD` and `L` have no initialiser; `uninit` is
their content when the body starts. -/
def ofPoses [Field K] (solver : G1Solver K) (uninit : ClothoidCurve K)
    (P0 : K × K) (theta0 : K) (P1 : K × K) (theta1 : K) :
    Except runtime_error (ClothoidCurve K) := do
  let (_, c) ← build_G1 solver uninit P0.1 P0.2 theta0 P1.1 P1.2 theta1 build_G1_tol
  return c

end ClothoidCurve

/-! ## Copies -/

namespace ClothoidCurve

/-- `copy(c)`: `CD = c.CD; L = c.L;` on the receiver `recv`.  Both members
are held by value. -/
def copy (recv c : ClothoidCurve K) : ClothoidCurve K :=
  { recv with CD := c.CD, L := c.L }

/-- `ClothoidCurve(ClothoidCurve const & s)`: the body is `copy(s)`; `uninit`
is the content of the members when the body starts. -/
def copyCtor (uninit s : ClothoidCurve K) : ClothoidCurve K :=
  uninit.copy s

/-- `operator = (s)`: `copy(s); return *this;`. -/
def assign (recv s : ClothoidCurve K) : ClothoidCurve K :=
  recv.copy s

end ClothoidCurve

/-- Objects live in a store, each at its own place; place `i` holds the
members of object `i`.  `Store.update st i f` is a call of the mutating member
function `f` on object `i`. -/
def Store.update (st : List (ClothoidCurve K)) (i : Nat)
    (f : ClothoidCurve K → ClothoidCurve K) : List (ClothoidCurve K) :=
  match st[i]? with
  | some r => st.set i (f r)
  | none => st

/-- `Store.readFrom st i j g` is a call on object `i` of a member function `g`
that takes object `j` by `const &`, such as `copy` and `operator =`. -/
def Store.readFrom (st : List (ClothoidCurve K)) (i j : Nat)
    (g : ClothoidCurve K → ClothoidCurve K → ClothoidCurve K) :
    List (ClothoidCurve K) :=
  match st[i]?, st[j]? with
  | some r, some c => st.set i (g r c)
  | _, _ => st

/-! ## The forward solve, sampling, bounding triangles and intersections -/

/-- Modelled from the spec: what one call of `ClothoidData::build_forward`
(defined outside the sources at hand) leaves behind: the returned `bool`, the
receiver after the call and the value written through `real_type & L`.  The
spec names the operation "forward-solve (fixed start pose+curvature, free
endpoint)". -/
structure ForwardResult (K : Type) where
  ok : Bool
  CD : ClothoidData K
  L : K
deriving DecidableEq

/-- Modelled from the spec: the interface of `ClothoidData::build_forward`.
The arguments are the receiver, `x0 y0 theta0 kappa0 x1 y1 tol` and the value
of `L` on entry.  The call either returns or throws. -/
abbrev ForwardSolver (K : Type) : Type :=
  ClothoidData K → K → K → K → K → K → K → K → K →
    Except runtime_error (ForwardResult K)

/-- The values `closestPointBySample` hands back: the returned distance and
the outputs `X`, `Y`, `S`. -/
structure SampleResult (K : Type) where
  dst : K
  X : K
  Y : K
  S : K
deriving DecidableEq

/-- The interface of `closestPointBySample(ds,qx,qy,X,Y,S) const`, declared in
`Clothoid.hh` and defined outside the sources at hand. -/
abbrev ClosestBySample (K : Type) : Type :=
  ClothoidCurve K → K → K → K → SampleResult K

/-- The three corners of a `Triangle2D` (declared in `Triangle2D.hh`), read
through `x1() y1() x2() y2() x3() y3()`. -/
structure Triangle2D (K : Type) where
  x1 : K
  y1 : K
  x2 : K
  y2 : K
  x3 : K
  y3 : K
deriving DecidableEq

/-- The interface of `bbTriangles(offs,tvec,max_angle,max_size) const`, declared
in `Clothoid.hh` and defined outside the sources at hand: the receiver, `offs`,
`tvec` on entry, `max_angle`, `max_size`; the value is `tvec` after the call. -/
abbrev BBTrianglesImpl (K : Type) : Type :=
  ClothoidCurve K → K → List (Triangle2D K) → K → K → List (Triangle2D K)

/-- The interface of `intersect(offs,c,c_offs,s1,s2,max_iter,tolerance) const`
on two clothoids, declared in `Clothoid.hh` and defined outside the sources at
hand: the value is the pair of vectors `s1`, `s2` after the call. -/
abbrev IntersectImpl (K : Type) : Type :=
  ClothoidCurve K → K → ClothoidCurve K → K → List K → List K → Int → K →
    List K × List K

/-- The default argument `tol = 1e-12` of `build_forward`. -/
def build_forward_tol [Field K] : K := 1e-12

/-- The default argument `max_angle = m_pi/6` of both `bbTriangles`
overloads; `m_pi` is declared `extern` in `G2lib.hh`. -/
def bbTriangles_max_angle [Field K] (m_pi : K) : K := m_pi / 6

/-- The default argument `max_size = 1e100` of both `bbTriangles`
overloads. -/
def bbTriangles_max_size [Field K] : K := 1e100

namespace ClothoidCurve

/-- `build_forward(x0,y0,theta0,kappa0,x1,y1,tol)`:
`return CD.build_forward( x0, y0, theta0, kappa0, x1, y1, tol, L );`. -/
def build_forward (solver : ForwardSolver K) (c : ClothoidCurve K)
    (x0 y0 theta0 kappa0 x1 y1 tol : K) :
    Except runtime_error (Bool × ClothoidCurve K) := do
  let r ← solver c.CD x0 y0 theta0 kappa0 x1 y1 tol c.L
  return (r.ok, { c with CD := r.CD, L := r.L })

/-- `Pinfinity(x,y,plus)` is `CD.Pinfinity( x, y, plus )`; the method of
`ClothoidData` is the parameter `CD_Pinfinity`. -/
def Pinfinity (CD_Pinfinity : ClothoidData K → Bool → K × K)
    (c : ClothoidCurve K) (plus : Bool) : K × K :=
  CD_Pinfinity c.CD plus

/-- `distanceBySample(ds,qx,qy,S)`: the returned distance, and `S`. -/
def distanceBySample_S (sample : ClosestBySample K) (c : ClothoidCurve K)
    (ds qx qy : K) : K × K :=
  let r := sample c ds qx qy
  (r.dst, r.S)

/-- `distanceBySample(ds,qx,qy)`: the returned distance. -/
def distanceBySample (sample : ClosestBySample K) (c : ClothoidCurve K)
    (ds qx qy : K) : K :=
  (sample c ds qx qy).dst

/-- `bbTriangles(tvec,max_angle,max_size)`:
`bbTriangles( 0, tvec, max_angle, max_size );`. -/
def bbTriangles [Field K] (impl : BBTrianglesImpl K) (c : ClothoidCurve K)
    (tvec : List (Triangle2D K)) (max_angle max_size : K) :
    List (Triangle2D K) :=
  impl c 0 tvec max_angle max_size

/-- The call `bbTriangles(offs,tvec)`: both default arguments are filled
in. -/
def bbTriangles_offs_defaults [Field K] (impl : BBTrianglesImpl K) (m_pi : K)
    (c : ClothoidCurve K) (offs : K) (tvec : List (Triangle2D K)) :
    List (Triangle2D K) :=
  impl c offs tvec (bbTriangles_max_angle m_pi) bbTriangles_max_size

/-- The call `bbTriangles(tvec)`: both default arguments are filled in. -/
def bbTriangles_defaults [Field K] (impl : BBTrianglesImpl K) (m_pi : K)
    (c : ClothoidCurve K) (tvec : List (Triangle2D K)) : List (Triangle2D K) :=
  bbTriangles impl c tvec (bbTriangles_max_angle m_pi) bbTriangles_max_size

/-- `intersect(c,s1,s2,max_iter,tolerance)`:
`intersect( 0, c, 0, s1, s2, max_iter, tolerance );`. -/
def intersect [Field K] (impl : IntersectImpl K) (self c : ClothoidCurve K)
    (s1 s2 : List K) (max_iter : Int) (tolerance : K) : List K × List K :=
  impl self 0 c 0 s1 s2 max_iter tolerance

/-- `intersect(offs,CircleArc c_in,c_offs,s1,s2,max_iter,tolerance)`:
`ClothoidCurve c(c_in); intersect( offs, c, c_offs, s1, s2, max_iter, tolerance );`.
-/
def intersect_offs_CircleArc [Field K] (impl : IntersectImpl K)
    (self : ClothoidCurve K) (offs : K) (c_in : CircleArc K) (c_offs : K)
    (s1 s2 : List K) (max_iter : Int) (tolerance : K) : List K × List K :=
  let c := ofCircleArc c_in
  impl self offs c c_offs s1 s2 max_iter tolerance

/-- `intersect(CircleArc c_in,s1,s2,max_iter,tolerance)`:
`ClothoidCurve c(c_in); intersect( 0, c, 0, s1, s2, max_iter, tolerance );`. -/
def intersect_CircleArc [Field K] (impl : IntersectImpl K)
    (self : ClothoidCurve K) (c_in : CircleArc K)
    (s1 s2 : List K) (max_iter : Int) (tolerance : K) : List K × List K :=
  let c := ofCircleArc c_in
  impl self 0 c 0 s1 s2 max_iter tolerance

/-- `intersect(offs,LineSegment c_in,c_offs,s1,s2,max_iter,tolerance)`:
`ClothoidCurve c(c_in); intersect( offs, c, c_offs, s1, s2, max_iter, tolerance );`.
-/
def intersect_offs_LineSegment [Field K] (impl : IntersectImpl K)
    (self : ClothoidCurve K) (offs : K) (c_in : LineSegment K) (c_offs : K)
    (s1 s2 : List K) (max_iter : Int) (tolerance : K) : List K × List K :=
  let c := ofLineSegment c_in
  impl self offs c c_offs s1 s2 max_iter tolerance

/-- `intersect(LineSegment c_in,s1,s2,max_iter,tolerance)`:
`ClothoidCurve c(c_in); intersect( 0, c, 0, s1, s2, max_iter, tolerance );`. -/
def intersect_LineSegment [Field K] (impl : IntersectImpl K)
    (self : ClothoidCurve K) (c_in : LineSegment K)
    (s1 s2 : List K) (max_iter : Int) (tolerance : K) : List K × List K :=
  let c := ofLineSegment c_in
  impl self 0 c 0 s1 s2 max_iter tolerance

end ClothoidCurve

/-! ## The binding layer: `mex_ClothoidCurveMexWrapper.cc`

The host values, the object table and the helpers below stand for `mex.h` and
for `mex_utils.hh`, neither of which is among the sources.  A handler receives
the object table, `nlhs` and the list `prhs` (so `nrhs = prhs.length`), and
returns the updated table with the outputs it assigned (`arg_out_0`, ...), or
the message of the failure it raised. -/

/-- The host values the handlers read and write: a real double scalar, an
integer scalar, a logical scalar, a character array, an object handle, a real
double array of `nr` rows and `nc` columns that is not a scalar (`data` in
column order), and a structure with named fields. -/
inductive mxArray (K : Type) where
  | double (v : K)
  | int32 (v : Int)
  | logical (b : Bool)
  | chars (s : String)
  | objptr (id : Nat)
  | matrix (nr nc : Nat) (data : List K)
  | struct (fields : List (String × mxArray K))

/-- Modelled from the spec: `MEX_ASSERT(COND,MSG)`, a macro of `mex_utils.hh`
(not among the sources).  By the spec the binding "converts thrown failures
into host-level errors": a false `COND` ends the handler with the failure
`MSG`. -/
def MEX_ASSERT (COND : Bool) (MSG : String) : Except String Unit :=
  if !COND then throw MSG else pure ()

/-- Modelled from the spec: `arg_in_k`, a macro of `mex_utils.hh` for
`prhs[k]`.  A read past `nrhs` has no value. -/
def arg_in (prhs : List (mxArray K)) (k : Nat) : Except String (mxArray K) :=
  match prhs[k]? with
  | some a => pure a
  | none => throw "arg_in: no such argument"

/-- Modelled from the spec: `getScalarValue(arg,msg)` of `mex_utils.hh`: the
value of a real double scalar, the failure `msg` for any other host value. -/
def getScalarValue (arg : mxArray K) (msg : String) : Except String K :=
  match arg with
  | .double v => pure v
  | .matrix 1 1 [v] => pure v
  | _ => throw msg

/-- Modelled from the spec: `DATA_GET(mx_id)` is
`convertMat2Ptr<ClothoidCurve>(mx_id)`, a template of `mex_utils.hh`: the
object a handle designates, with its place in the object table. -/
def DATA_GET (objs : List (ClothoidCurve K)) (mx_id : mxArray K) :
    Except String (Nat × ClothoidCurve K) :=
  match mx_id with
  | .objptr id =>
    match objs[id]? with
    | some c => pure (id, c)
    | none => throw "DATA_GET: invalid handle"
  | _ => throw "DATA_GET: not a handle"

/-- Modelled from the spec: `setScalarInt(arg_out,v)` of `mex_utils.hh`
creates a host integer scalar holding `v`. -/
def setScalarInt (v : Int) : mxArray K := .int32 v

/-- Modelled from the spec: `getMatrixPointer(arg,nr,nc,msg)` of
`mex_utils.hh`: the dimensions and the entries of a real double array, the
failure `msg` for any other host value. -/
def getMatrixPointer (arg : mxArray K) (msg : String) :
    Except String (Nat × Nat × List K) :=
  match arg with
  | .double v => pure (1, 1, [v])
  | .matrix nr nc data => pure (nr, nc, data)
  | _ => throw msg

/-- Modelled from the spec: `setScalarValue(arg_out,v)` of `mex_utils.hh`
creates a host real scalar holding `v`. -/
def setScalarValue (v : K) : mxArray K := .double v

/-- Modelled from the spec: `setScalarBool(arg_out,b)` of `mex_utils.hh`
creates a host logical scalar holding `b`. -/
def setScalarBool (b : Bool) : mxArray K := .logical b

/-- `mxIsChar` of `mex.h`. -/
def mxIsChar (a : mxArray K) : Bool :=
  match a with
  | .chars _ => true
  | _ => false

/-- `mxArrayToString` of `mex.h`; a null pointer for a value that is not a
character array. -/
def mxArrayToString (a : mxArray K) : Option String :=
  match a with
  | .chars s => some s
  | _ => none

/-- `mxIsStruct` of `mex.h`. -/
def mxIsStruct (a : mxArray K) : Bool :=
  match a with
  | .struct _ => true
  | _ => false

/-- `mxGetField(a,0,name)` of `mex.h`; a null pointer when `a` is not a
structure or has no such field. -/
def mxGetField (a : mxArray K) (name : String) : Option (mxArray K) :=
  match a with
  | .struct fields => fields.lookup name
  | _ => none

/-- The value behind a pointer that an assertion has shown to be non-null. -/
def deref (p : Option (mxArray K)) : Except String (mxArray K) :=
  match p with
  | some a => pure a
  | none => throw "deref: null pointer"

/-- `DATA_NEW(mx_id)`: `new ClothoidCurve()` and
`mx_id = convertPtr2Mat<ClothoidCurve>(ptr)`.  The new object takes the next
place of the object table; the place and the handle are returned. -/
def DATA_NEW [Field K] (objs : List (ClothoidCurve K)) :
    List (ClothoidCurve K) × Nat × mxArray K :=
  (objs ++ [ClothoidCurve.default], objs.length, .objptr objs.length)

/-- The six fields of a parameter structure, as `do_new` and `do_build` read
them: six `mxGetField`, six assertions that the field is there, six
`getScalarValue`.  `CMD` is the text of the macro `CMD` at that place. -/
def read_struct_pars (CMD : String) (a : mxArray K) :
    Except String (K × K × K × K × K × K) := do
  let mx_x0 := mxGetField a "x0"
  let mx_y0 := mxGetField a "y0"
  let mx_theta0 := mxGetField a "theta0"
  let mx_k0 := mxGetField a "k0"
  let mx_dk := mxGetField a "dk"
  let mx_L := mxGetField a "L"
  MEX_ASSERT mx_x0.isSome (CMD ++ "Field `x0` is missing")
  MEX_ASSERT mx_y0.isSome (CMD ++ "Field `y0` is missing")
  MEX_ASSERT mx_theta0.isSome (CMD ++ "Field `theta0` is missing")
  MEX_ASSERT mx_k0.isSome (CMD ++ "Field `k0` is missing")
  MEX_ASSERT mx_dk.isSome (CMD ++ "Field `dk` is missing")
  MEX_ASSERT mx_L.isSome (CMD ++ "Field `L` is missing")
  let x0 ← getScalarValue (← deref mx_x0) (CMD ++ "Field `x0` must be a real double scalar")
  let y0 ← getScalarValue (← deref mx_y0) (CMD ++ "Field `y0` must be a real double scalar")
  let theta0 ← getScalarValue (← deref mx_theta0) (CMD ++ "Field `theta0` must be a real double scalar")
  let k0 ← getScalarValue (← deref mx_k0) (CMD ++ "Field `k0` must be a real double scalar")
  let dk ← getScalarValue (← deref mx_dk) (CMD ++ "Field `dk` must be a real double scalar")
  let L ← getScalarValue (← deref mx_L) (CMD ++ "Field `L`  must be a real double scalar")
  return (x0, y0, theta0, k0, dk, L)

/-- `do_new(nlhs,plhs,nrhs,prhs)`. -/
def do_new [Field K] (objs : List (ClothoidCurve K)) (nlhs : Nat)
    (prhs : List (mxArray K)) :
    Except String (List (ClothoidCurve K) × List (mxArray K)) := do
  MEX_ASSERT (nlhs == 1)
    ("ClothoidCurveMexWrapper, expected 1 output, nlhs = " ++ toString nlhs)
  let (objs, id, arg_out_0) := DATA_NEW objs
  if prhs.length == 1 then
    return (objs, [arg_out_0])
  else if prhs.length == 2 then
    let CMD := "ClothoidCurveMexWrapper('new',struct): "
    let arg_in_1 ← arg_in prhs 1
    MEX_ASSERT (mxIsStruct arg_in_1) (CMD ++ "Argument n.2 must be a struct")
    let (x0, y0, theta0, k0, dk, L) ← read_struct_pars CMD arg_in_1
    return (Store.update objs id (fun ptr => ptr.build x0 y0 theta0 k0 dk L),
      [arg_out_0])
  else if prhs.length == 7 then
    let CMD := "ClothoidCurveMexWrapper('new',x0,y0,theta0,k0,dk,L): "
    let x0 ← getScalarValue (← arg_in prhs 1) (CMD ++ "Error in reading x0")
    let y0 ← getScalarValue (← arg_in prhs 2) (CMD ++ "Error in reading y0")
    let theta0 ← getScalarValue (← arg_in prhs 3) (CMD ++ "Error in reading theta0")
    let k0 ← getScalarValue (← arg_in prhs 4) (CMD ++ "Error in reading k0")
    let dk ← getScalarValue (← arg_in prhs 5) (CMD ++ "Error in reading dk")
    let L ← getScalarValue (← arg_in prhs 6) (CMD ++ "Error in reading L")
    return (Store.update objs id (fun ptr => ptr.build x0 y0 theta0 k0 dk L),
      [arg_out_0])
  else
    MEX_ASSERT false
      ("ClothoidCurveMexWrapper('new',...):" ++
        "  expected 1, 2, or 7 inputs, nrhs = " ++ toString prhs.length)
    return (objs, [arg_out_0])

/-- `do_build(nlhs,plhs,nrhs,prhs)`.  The structure form is taken when
`nrhs == 2`, and there `mxIsStruct` is asked of `arg_in_1` while the fields are
read from `arg_in_2`. -/
def do_build (objs : List (ClothoidCurve K)) (nlhs : Nat)
    (prhs : List (mxArray K)) :
    Except String (List (ClothoidCurve K) × List (mxArray K)) := do
  MEX_ASSERT (nlhs == 0)
    ("ClothoidCurveMexWrapper('build',OBJ,...): " ++
      "expected no output, nlhs = " ++ toString nlhs)
  let (id, ptr) ← DATA_GET objs (← arg_in prhs 1)
  if prhs.length == 2 then
    let CMD := "ClothoidCurveMexWrapper('build',OBJ,struct): "
    MEX_ASSERT (mxIsStruct (← arg_in prhs 1)) (CMD ++ "Argument n.3 must be a struct")
    let (x0, y0, theta0, k0, dk, L) ← read_struct_pars CMD (← arg_in prhs 2)
    return (objs.set id (ptr.build x0 y0 theta0 k0 dk L), [])
  else if prhs.length == 8 then
    let CMD := "ClothoidCurveMexWrapper('build',OBJ,x0,y0,theta0,k0,dk,L): "
    let x0 ← getScalarValue (← arg_in prhs 2) (CMD ++ "Error in reading x0")
    let y0 ← getScalarValue (← arg_in prhs 3) (CMD ++ "Error in reading y0")
    let theta0 ← getScalarValue (← arg_in prhs 4) (CMD ++ "Error in reading theta0")
    let k0 ← getScalarValue (← arg_in prhs 5) (CMD ++ "Error in reading k0")
    let dk ← getScalarValue (← arg_in prhs 6) (CMD ++ "Error in reading dk")
    let L ← getScalarValue (← arg_in prhs 7) (CMD ++ "Error in reading L")
    return (objs.set id (ptr.build x0 y0 theta0 k0 dk L), [])
  else
    MEX_ASSERT false
      ("ClothoidCurveMexWrapper('build',OBJ,...):" ++
        "  expected 3, or 8 inputs, nrhs = " ++ toString prhs.length)
    return (objs, [])

/-- The rule that opens lines 21, 98 and 108 of the usage text: the sign `=`
85 times. -/
def MEX_ERROR_MESSAGE_rule : String := "".pushn '=' 85

/-- The text of the macro `MEX_ERROR_MESSAGE`: the adjacent string literals of
lines 21 to 108, in order, each rule written as `MEX_ERROR_MESSAGE_rule`. -/
def MEX_ERROR_MESSAGE : String :=
  String.join [
    MEX_ERROR_MESSAGE_rule, "\n",
    "ClothoidCurveMexWrapper:  Compute parameters of the G1 Hermite clothoid fitting\n",
    "\n",
    "USAGE:\n",
    "  - Constructors:\n",
    "    OBJ = ClothoidCurveMexWrapper( 'new' );\n",
    "    OBJ = ClothoidCurveMexWrapper( 'new', x0, y0, theta0, k0, dk, L );\n",
    "\n",
    "    On input:\n",
    "      x0, y0 = coordinate of initial point\n",
    "      theta0 = orientation (angle) of the clothoid at initial point",
    "      k0     = curvature of the clothoid at initial point\n",
    "      dk     = derivative of curvature respect to arclength\n",
    "      L      = length of the clothoid curve from initial to final point\n",
    "\n",
    "     On output:\n",
    "       OBJ   = pointer to the internal object\n",
    "n",
    "  - Destructor:\n",
    "    ClothoidCurveMexWrapper( 'delete', OBJ );\n",
    "\n",
    "  - Build:\n",
    "    ClothoidCurveMexWrapper( 'build', OBJ, x0, y0, theta0, k0, dk, L );\n",
    "    ClothoidCurveMexWrapper( 'build_G1', OBJ, x0, y0, theta0, x1, y1, theta1 );\n",
    "    [ L_D, k_D, dk_D ] = ClothoidCurveMexWrapper( 'build_G1_D', OBJ, x0, y0, theta0, x1, y1, theta1 );\n",
    "    res = ClothoidCurveMexWrapper( 'build_forward', OBJ,x0,y0,theta0,k0,x1,y1 );\n",
    "    ClothoidCurveMexWrapper( 'copy', OBJ, OBJ1 );\n",
    "\n",
    "  - Eval:\n",
    "    [x,y,theta,kappa] = ClothoidCurveMexWrapper( 'evaluate', OBJ, ss );\n",
    "    [x0,y0,theta0,k0,dk,smin,smax] = ClothoidCurveMexWrapper( 'getPars', OBJ );\n",
    "\n",
    "    [x,y]         = ClothoidCurveMexWrapper( 'eval', OBJ, ss[, offs] );\n",
    "    [x_D,y_D]     = ClothoidCurveMexWrapper( 'eval_D', OBJ, ss[, offs] );\n",
    "    [x_DD,y_DD]   = ClothoidCurveMexWrapper( 'eval_DD', OBJ, ss[, offs] );\n",
    "    [x_DDD,y_DDD] = ClothoidCurveMexWrapper( 'eval_DDD', OBJ, ss[, offs] );\n",
    "\n",
    "  - Transform:\n",
    "    ClothoidCurveMexWrapper( 'trim', OBJ, smin, smax );\n",
    "    ClothoidCurveMexWrapper( 'changeOrigin', OBJ, newX0, newY0 );\n",
    "    ClothoidCurveMexWrapper( 'rotate', OBJ, angle, cx, cy );\n",
    "    ClothoidCurveMexWrapper( 'translate', OBJ, tx, ty );\n",
    "    ClothoidCurveMexWrapper( 'scale', OBJ, scaling );\n",
    "    ClothoidCurveMexWrapper( 'reverse', OBJ );\n",
    "    [xp, yp, xm, ym] = ClothoidCurveMexWrapper( 'infinity', OBJ );\n",
    "  - Boundary:\n",
    "    pt  = ClothoidCurveMexWrapper( 'xyBegin', OBJ );\n",
    "    res = ClothoidCurveMexWrapper( 'xBegin', OBJ );\n",
    "    res = ClothoidCurveMexWrapper( 'yBegin', OBJ );\n",
    "    res = ClothoidCurveMexWrapper( 'thetaBegin', OBJ );\n",
    "    res = ClothoidCurveMexWrapper( 'kappaBegin', OBJ );\n",
    "    res = ClothoidCurveMexWrapper( 'kappaEnd', OBJ );\n",
    "    pt  = ClothoidCurveMexWrapper( 'xyEnd', OBJ );\n",
    "    res = ClothoidCurveMexWrapper( 'xEnd', OBJ );\n",
    "    res = ClothoidCurveMexWrapper( 'yEnd', OBJ );\n",
    "    res = ClothoidCurveMexWrapper( 'thetaEnd', OBJ );\n",
    "    res = ClothoidCurveMexWrapper( 'kappaEnd', OBJ );\n",
    "    res = ClothoidCurveMexWrapper( 'kappa_D', OBJ );\n",
    "    res = ClothoidCurveMexWrapper( 'length', OBJ );\n",
    "\n",
    "  - Distance:\n",
    "    [X,Y,s,dst] = ClothoidCurveMexWrapper( 'closestPoint', OBJ, x, y );\n",
    "    [dst,s]     = ClothoidCurveMexWrapper( 'distance', OBJ, x, y );\n",
    "    [X,Y,s,dst] = ClothoidCurveMexWrapper( 'closestPointBySample', OBJ, x, y, ds );\n",
    "    [dst,s]     = ClothoidCurveMexWrapper( 'distanceBySample', OBJ, x, y, ds );\n",
    "    [s,t]       = ClothoidCurveMexWrapper( 'findST', OBJ, x, y );\n",
    "\n",
    "  - Intersection:\n",
    "    [s1,s2] = ClothoidCurveMexWrapper( 'intersect_line', OBJ, OBJ2 );%\n",
    "    [s1,s2] = ClothoidCurveMexWrapper( 'intersect_circle', OBJ, OBJ2 );%\n",
    "    [s1,s2] = ClothoidCurveMexWrapper( 'intersect_clothoid', OBJ, OBJ2 );%\n",
    "    [s1,s2] = ClothoidCurveMexWrapper( 'intersect_clothoid_list', OBJ, OBJ2 );%\n",
    "\n",
    "  - Bounding Box:\n",
    "    TT = ClothoidCurveMexWrapper( 'bbox', OBJ, max_angle, max_size );%\n",
    "    TT = ClothoidCurveMexWrapper( 'bbox', OBJ, max_angle, max_size, offs );%\n",
    "\n",
    MEX_ERROR_MESSAGE_rule, "\n",
    "\n",
    "Autors: Enrico Bertolazzi^(1), Marco Frego^(2), Paolo Bevilacqua^(2)\n",
    "  (1) Department of Industrial Engineering\n",
    "  (2) Department of Information Engineering and Computer Science\n",
    "  University of Trento\n",
    "  enrico.bertolazzi@unitn.it\n",
    "  m.fregox@gmail.com\n",
    "  paolo.bevilacqua@unitn.it\n",
    "\n",
    MEX_ERROR_MESSAGE_rule, "\n"]

/-- A `std::exception` leaving a handler is caught in `mexFunction`, which
reports `e.what()`: inside a handler a failure of the core is the failure with
that text. -/
def core_call {α : Type} (r : Except runtime_error α) : Except String α :=
  match r with
  | .ok v => pure v
  | .error e => throw e.what

/-- The text of `CMD` inside `do_build_G1`. -/
def do_build_G1_CMD : String :=
  "ClothoidCurveMexWrapper('build_G1',OBJ,x0,y0,theta0,x1,y1,theta1): "

/-- `do_build_G1(nlhs,plhs,nrhs,prhs)`: two assertions on the counts, the six
scalars, `ptr->build_G1(...)` with the default tolerance, and
`if ( nlhs == 1 ) setScalarInt( arg_out_0, iter );`. -/
def do_build_G1 [Field K] (solver : G1Solver K) (objs : List (ClothoidCurve K))
    (nlhs : Nat) (prhs : List (mxArray K)) :
    Except String (List (ClothoidCurve K) × List (mxArray K)) := do
  MEX_ASSERT (nlhs ≤ 1)
    (do_build_G1_CMD ++ "expected 1 or no output, nlhs = " ++ toString nlhs)
  MEX_ASSERT (prhs.length == 8)
    (do_build_G1_CMD ++ "expected 8 inputs, nrhs = " ++ toString prhs.length)
  let (id, ptr) ← DATA_GET objs (← arg_in prhs 1)
  let x0 ← getScalarValue (← arg_in prhs 2) (do_build_G1_CMD ++ "Error in reading x0")
  let y0 ← getScalarValue (← arg_in prhs 3) (do_build_G1_CMD ++ "Error in reading y0")
  let theta0 ← getScalarValue (← arg_in prhs 4) (do_build_G1_CMD ++ "Error in reading theta0")
  let x1 ← getScalarValue (← arg_in prhs 5) (do_build_G1_CMD ++ "Error in reading x1")
  let y1 ← getScalarValue (← arg_in prhs 6) (do_build_G1_CMD ++ "Error in reading y1")
  let theta1 ← getScalarValue (← arg_in prhs 7) (do_build_G1_CMD ++ "Error in reading theta1")
  let (iter, ptr) ← core_call (ptr.build_G1 solver x0 y0 theta0 x1 y1 theta1 build_G1_tol)
  let plhs : List (mxArray K) := if nlhs == 1 then [setScalarInt iter] else []
  return (objs.set id ptr, plhs)

/-- `do_build_G1_D(nlhs,plhs,nrhs,prhs)`. -/
def do_build_G1_D [Field K] (solver : G1Solver K)
    (objs : List (ClothoidCurve K)) (nlhs : Nat) (prhs : List (mxArray K)) :
    Except String (List (ClothoidCurve K) × List (mxArray K)) := do
  let CMD := "ClothoidCurveMexWrapper('build_G1_D',OBJ,x0,y0,theta0,x1,y1,theta1): "
  MEX_ASSERT (nlhs == 3 || nlhs == 4)
    (CMD ++ "expected 3 or 4 output, nlhs = " ++ toString nlhs)
  MEX_ASSERT (prhs.length == 8)
    (CMD ++ "expected 8 inputs, nrhs = " ++ toString prhs.length)
  let (id, ptr) ← DATA_GET objs (← arg_in prhs 1)
  let x0 ← getScalarValue (← arg_in prhs 2) (CMD ++ "Error in reading x0")
  let y0 ← getScalarValue (← arg_in prhs 3) (CMD ++ "Error in reading y0")
  let theta0 ← getScalarValue (← arg_in prhs 4) (CMD ++ "Error in reading theta0")
  let x1 ← getScalarValue (← arg_in prhs 5) (CMD ++ "Error in reading x1")
  let y1 ← getScalarValue (← arg_in prhs 6) (CMD ++ "Error in reading y1")
  let theta1 ← getScalarValue (← arg_in prhs 7) (CMD ++ "Error in reading theta1")
  MEX_ASSERT (nlhs == 3 || nlhs == 4)
    (CMD ++ "expected 3 or 4 outputs, nlhs = " ++ toString nlhs)
  let (iter, ptr, d) ←
    core_call (ptr.build_G1_D solver x0 y0 theta0 x1 y1 theta1 build_G1_tol)
  let arg_out_0 : mxArray K := .matrix 2 1 [d.L_D.1, d.L_D.2]
  let arg_out_1 : mxArray K := .matrix 2 1 [d.k_D.1, d.k_D.2]
  let arg_out_2 : mxArray K := .matrix 2 1 [d.dk_D.1, d.dk_D.2]
  let arg_out_3 : List (mxArray K) := if nlhs == 4 then [setScalarInt iter] else []
  return (objs.set id ptr, [arg_out_0, arg_out_1, arg_out_2] ++ arg_out_3)

/-- `do_build_forward(nlhs,plhs,nrhs,prhs)`: two assertions on the counts, the
six scalars, `ptr->build_forward(...)` with the default tolerance `1e-12`, and
`setScalarBool( arg_out_0, ok )`. -/
def do_build_forward [Field K] (solver : ForwardSolver K)
    (objs : List (ClothoidCurve K)) (nlhs : Nat) (prhs : List (mxArray K)) :
    Except String (List (ClothoidCurve K) × List (mxArray K)) := do
  let CMD := "ClothoidCurveMexWrapper('build_forward',OBJ,x0,y0,theta0,kappa0,x1,y1): "
  MEX_ASSERT (nlhs == 1) (CMD ++ "expected 1 output, nlhs = " ++ toString nlhs)
  MEX_ASSERT (prhs.length == 8)
    (CMD ++ "expected 8 inputs, nrhs = " ++ toString prhs.length)
  let (id, ptr) ← DATA_GET objs (← arg_in prhs 1)
  let x0 ← getScalarValue (← arg_in prhs 2) (CMD ++ "Error in reading x0")
  let y0 ← getScalarValue (← arg_in prhs 3) (CMD ++ "Error in reading y0")
  let theta0 ← getScalarValue (← arg_in prhs 4) (CMD ++ "Error in reading theta0")
  let kappa0 ← getScalarValue (← arg_in prhs 5) (CMD ++ "Error in reading kappa0")
  let x1 ← getScalarValue (← arg_in prhs 6) (CMD ++ "Error in reading x1")
  let y1 ← getScalarValue (← arg_in prhs 7) (CMD ++ "Error in reading y1")
  let (ok, ptr) ←
    core_call (ptr.build_forward solver x0 y0 theta0 kappa0 x1 y1 build_forward_tol)
  return (objs.set id ptr, [setScalarBool ok])

/-- `do_k_begin(nlhs,plhs,nrhs,prhs)`. -/
def do_k_begin (objs : List (ClothoidCurve K)) (nlhs : Nat)
    (prhs : List (mxArray K)) :
    Except String (List (ClothoidCurve K) × List (mxArray K)) := do
  let CMD := "ClothoidCurveMexWrapper('kappaBegin',OBJ): "
  MEX_ASSERT (prhs.length == 2)
    (CMD ++ "expected 2 inputs, nrhs = " ++ toString prhs.length)
  MEX_ASSERT (nlhs == 1) (CMD ++ "expected 1 outputs, nlhs = " ++ toString nlhs)
  let (_, ptr) ← DATA_GET objs (← arg_in prhs 1)
  return (objs, [setScalarValue ptr.kappaBegin])

/-- `do_k_end(nlhs,plhs,nrhs,prhs)`. -/
def do_k_end [Field K] (objs : List (ClothoidCurve K)) (nlhs : Nat)
    (prhs : List (mxArray K)) :
    Except String (List (ClothoidCurve K) × List (mxArray K)) := do
  let CMD := "ClothoidCurveMexWrapper('kappaEnd',OBJ): "
  MEX_ASSERT (prhs.length == 2)
    (CMD ++ "expected 2 inputs, nrhs = " ++ toString prhs.length)
  MEX_ASSERT (nlhs == 1) (CMD ++ "expected 1 outputs, nlhs = " ++ toString nlhs)
  let (_, ptr) ← DATA_GET objs (← arg_in prhs 1)
  return (objs, [setScalarValue ptr.kappaEnd])

/-- `do_k_D(nlhs,plhs,nrhs,prhs)`. -/
def do_k_D (objs : List (ClothoidCurve K)) (nlhs : Nat)
    (prhs : List (mxArray K)) :
    Except String (List (ClothoidCurve K) × List (mxArray K)) := do
  let CMD := "ClothoidCurveMexWrapper('kappa_D',OBJ): "
  MEX_ASSERT (prhs.length == 2)
    (CMD ++ "expected 2 inputs, nrhs = " ++ toString prhs.length)
  MEX_ASSERT (nlhs == 1) (CMD ++ "expected 1 outputs, nlhs = " ++ toString nlhs)
  let (_, ptr) ← DATA_GET objs (← arg_in prhs 1)
  return (objs, [setScalarValue ptr.dkappa])

/-- `do_change_curvilinear_origin(nlhs,plhs,nrhs,prhs)`. -/
def do_change_curvilinear_origin
    (origin_at : ClothoidData K → K → ClothoidData K)
    (objs : List (ClothoidCurve K)) (nlhs : Nat) (prhs : List (mxArray K)) :
    Except String (List (ClothoidCurve K) × List (mxArray K)) := do
  let CMD := "ClothoidCurveMexWrapper('changeCurvilinearOrigin',OBJ,s0,L): "
  MEX_ASSERT (prhs.length == 4)
    (CMD ++ "expected 4 inputs, nrhs = " ++ toString prhs.length)
  MEX_ASSERT (nlhs == 0) (CMD ++ "expected NO outputs, nlhs = " ++ toString nlhs)
  let (id, ptr) ← DATA_GET objs (← arg_in prhs 1)
  let s0 ← getScalarValue (← arg_in prhs 2) (CMD ++ "Error in reading s0")
  let L ← getScalarValue (← arg_in prhs 3) (CMD ++ "Error in reading L")
  return (objs.set id (ptr.changeCurvilinearOrigin origin_at s0 L), [])

/-- `do_infinity(nlhs,plhs,nrhs,prhs)`. -/
def do_infinity (CD_Pinfinity : ClothoidData K → Bool → K × K)
    (objs : List (ClothoidCurve K)) (nlhs : Nat) (prhs : List (mxArray K)) :
    Except String (List (ClothoidCurve K) × List (mxArray K)) := do
  let CMD := "ClothoidCurveMexWrapper('infinity',OBJ): "
  MEX_ASSERT (prhs.length == 2)
    (CMD ++ "expected 2 inputs, nrhs = " ++ toString prhs.length)
  MEX_ASSERT (nlhs == 4) (CMD ++ "expected 4 output, nlhs = " ++ toString nlhs)
  let (_, ptr) ← DATA_GET objs (← arg_in prhs 1)
  let (xp, yp) := ptr.Pinfinity CD_Pinfinity true
  let (xm, ym) := ptr.Pinfinity CD_Pinfinity false
  return (objs, [setScalarValue xp, setScalarValue yp, setScalarValue xm,
    setScalarValue ym])

/-- The text of the failed size assertion of the two sampling commands; it
streams `nrx`, `nry`, `nry`, `ncy`. -/
def same_size_text (CMD : String) (nrx nry ncy : Nat) : String :=
  CMD ++ "`x` and `y` expected to be of the same size, found size(x) = " ++
    toString nrx ++ " x " ++ toString nry ++ " size(y) = " ++ toString nry ++
    " x " ++ toString ncy

/-- The text of the failed assertion `ds > 0` of the two sampling commands;
`stream_real` is `operator <<` on a `real_type`. -/
def positive_ds_text (stream_real : K → String) (CMD : String) (ds : K) :
    String :=
  CMD ++ "`ds` = " ++ stream_real ds ++ " must be a positive number"

/-- `do_distance_by_sample(nlhs,plhs,nrhs,prhs)`.  Everything after `DATA_GET`
stands under `if ( nlhs > 0 )`.  The loops run over `size = nrx*ncx` entries
of `x` and `y`. -/
def do_distance_by_sample [LinearOrderedField K] (stream_real : K → String)
    (sample : ClosestBySample K)
    (objs : List (ClothoidCurve K)) (nlhs : Nat) (prhs : List (mxArray K)) :
    Except String (List (ClothoidCurve K) × List (mxArray K)) := do
  let CMD := "ClothoidCurveMexWrapper('distanceBySample',OBJ,x,y,ds): "
  MEX_ASSERT (prhs.length == 5)
    (CMD ++ "expected 5 input, nrhs = " ++ toString prhs.length)
  let (_, ptr) ← DATA_GET objs (← arg_in prhs 1)
  if nlhs > 0 then
    MEX_ASSERT (nlhs ≤ 2) (CMD ++ "expected 1 or 2 output, nlhs = " ++ toString nlhs)
    let (nrx, ncx, x) ← getMatrixPointer (← arg_in prhs 2)
      (CMD ++ "`x` expected to be a real vector/matrix")
    let (nry, ncy, y) ← getMatrixPointer (← arg_in prhs 3)
      (CMD ++ "`y` expected to be a real vector/matrix")
    MEX_ASSERT (nrx == nry && ncx == ncy) (same_size_text CMD nrx nry ncy)
    let ds ← getScalarValue (← arg_in prhs 4) (CMD ++ "`ds` expected to be a real scalar")
    MEX_ASSERT (decide (ds > 0)) (positive_ds_text stream_real CMD ds)
    let size := nrx * ncx
    let pts := (x.zip y).take size
    if nlhs > 1 then
      let r := pts.map (fun q => ptr.distanceBySample_S sample ds q.1 q.2)
      return (objs, [.matrix nrx ncx (r.map Prod.fst), .matrix nrx ncx (r.map Prod.snd)])
    else
      return (objs, [.matrix nrx ncx
        (pts.map (fun q => ptr.distanceBySample sample ds q.1 q.2))])
  else
    return (objs, [])

/-- `do_closest_by_sample(nlhs,plhs,nrhs,prhs)`. -/
def do_closest_by_sample [LinearOrderedField K] (stream_real : K → String)
    (sample : ClosestBySample K)
    (objs : List (ClothoidCurve K)) (nlhs : Nat) (prhs : List (mxArray K)) :
    Except String (List (ClothoidCurve K) × List (mxArray K)) := do
  let CMD := "ClothoidCurveMexWrapper('closestPointBySample',OBJ,x,y,ds): "
  MEX_ASSERT (prhs.length == 5)
    (CMD ++ "expected 5 input, nrhs = " ++ toString prhs.length)
  MEX_ASSERT (nlhs == 4) (CMD ++ "expected 4 outputs, nlhs = " ++ toString nlhs)
  let (_, ptr) ← DATA_GET objs (← arg_in prhs 1)
  let (nrx, ncx, x) ← getMatrixPointer (← arg_in prhs 2)
    (CMD ++ "`x` expected to be a real vector/matrix")
  let (nry, ncy, y) ← getMatrixPointer (← arg_in prhs 3)
    (CMD ++ "`y` expected to be a real vector/matrix")
  MEX_ASSERT (nrx == nry && ncx == ncy) (same_size_text CMD nrx nry ncy)
  let ds ← getScalarValue (← arg_in prhs 4) (CMD ++ "`ds` expected to be a real scalar")
  MEX_ASSERT (decide (ds > 0)) (positive_ds_text stream_real CMD ds)
  let size := nrx * ncx
  let r := ((x.zip y).take size).map (fun q => sample ptr ds q.1 q.2)
  return (objs, [.matrix nrx ncx (r.map SampleResult.X),
    .matrix nrx ncx (r.map SampleResult.Y), .matrix nrx ncx (r.map SampleResult.S),
    .matrix nrx ncx (r.map SampleResult.dst)])

/-- `do_bbTriangles(nlhs,plhs,nrhs,prhs)`.  The locals start as
`max_angle = m_pi/18`, `max_size = 1e100`, `offs = 0`; the three outputs are
`2 x nt` arrays holding the corners of the triangles. -/
def do_bbTriangles [Field K] (m_pi : K) (impl : BBTrianglesImpl K)
    (objs : List (ClothoidCurve K)) (nlhs : Nat) (prhs : List (mxArray K)) :
    Except String (List (ClothoidCurve K) × List (mxArray K)) := do
  let CMD := "ClothoidCurveMexWrapper('bbTriangles',OBJ[,max_angle,max_size,offs]): "
  MEX_ASSERT (prhs.length ≥ 2 && prhs.length ≤ 5)
    (CMD ++ "expected 2 up to 5 inputs, nrhs = " ++ toString prhs.length)
  MEX_ASSERT (nlhs == 3) (CMD ++ "expected 3 output, nlhs = " ++ toString nlhs)
  let (_, ptr) ← DATA_GET objs (← arg_in prhs 1)
  let mut max_angle : K := m_pi / 18
  let mut max_size : K := 1e100
  let mut offs : K := 0
  if prhs.length ≥ 3 then
    max_angle ← getScalarValue (← arg_in prhs 2)
      (CMD ++ "`max_angle` expected to be a real scalar")
  if prhs.length ≥ 4 then
    max_size ← getScalarValue (← arg_in prhs 3)
      (CMD ++ "`max_size` expected to be a real scalar")
  if prhs.length ≥ 5 then
    offs ← getScalarValue (← arg_in prhs 4)
      (CMD ++ "`offs` expected to be a real scalar")
  let tvec : List (Triangle2D K) :=
    if prhs.length == 5 then impl ptr offs [] max_angle max_size
    else ptr.bbTriangles impl [] max_angle max_size
  let nt := tvec.length
  let p0 := (tvec.map (fun t => [t.x1, t.y1])).flatten
  let p1 := (tvec.map (fun t => [t.x2, t.y2])).flatten
  let p2 := (tvec.map (fun t => [t.x3, t.y3])).flatten
  return (objs, [.matrix 2 nt p0, .matrix 2 nt p1, .matrix 2 nt p2])

/-! ## Dispatch: `mexFunction` -/

/-- What a C++ statement can throw: an object derived from `std::exception`,
with the text of `what()`, or anything else. -/
inductive Thrown where
  | std (what : String)
  | other

/-- The enumeration `CMD_LIST`.  `CMD_VIRTUAL_LIST` is a macro of
`mex_common.hxx`, which is not among the sources: `VIRTUAL n` stands for its
enumerators. -/
inductive CMD_LIST where
  | CMD_NEW
  | CMD_BUILD
  | CMD_BUILD_G1
  | CMD_BUILD_G1_D
  | CMD_BUILD_FORWARD
  | CMD_KAPPA_BEGIN
  | CMD_KAPPA_END
  | CMD_KAPPA_D
  | CMD_CHANGE_CURVILINEAR_ORIGIN
  | CMD_INFINITY
  | CMD_DISTANCE_BY_SAMPLE
  | CMD_CLOSEST_BY_SAMPLE
  | CMD_BB_TRIANGLES
  | VIRTUAL (n : Nat)
deriving DecidableEq

/-- Everything `mexFunction` reaches that is defined outside the sources at
hand: the constant `m_pi`, the solvers and the other members of the core that
`Clothoid.hh` only declares, `operator <<` on a `real_type`, the text of the
`std::out_of_range` that `std::map::at` throws, and the entries
(`CMD_MAP_LIST`) and the `case` labels (`CMD_CASE_LIST`) that `mex_common.hxx`
adds. -/
structure External (K : Type) where
  m_pi : K
  build_G1 : G1Solver K
  build_forward : ForwardSolver K
  origin_at : ClothoidData K → K → ClothoidData K
  Pinfinity : ClothoidData K → Bool → K × K
  closestPointBySample : ClosestBySample K
  bbTriangles : BBTrianglesImpl K
  stream_real : K → String
  out_of_range_what : String
  CMD_MAP_LIST : List (String × Nat)
  CMD_CASE_LIST : Nat → List (ClothoidCurve K) → Nat → List (mxArray K) →
    Except Thrown (List (ClothoidCurve K) × List (mxArray K))

/-- The map `cmd_to_idx`: the thirteen entries written out, then
`CMD_MAP_LIST`.  The first entry of a key is the one the map keeps. -/
def cmd_to_idx (CMD_MAP_LIST : List (String × Nat)) :
    List (String × CMD_LIST) :=
  [("new", .CMD_NEW),
   ("build", .CMD_BUILD),
   ("build_G1", .CMD_BUILD_G1),
   ("build_G1_D", .CMD_BUILD_G1_D),
   ("kappaBegin", .CMD_KAPPA_BEGIN),
   ("kappaEnd", .CMD_KAPPA_END),
   ("kappa_D", .CMD_KAPPA_D),
   ("build_forward", .CMD_BUILD_FORWARD),
   ("changeCurvilinearOrigin", .CMD_CHANGE_CURVILINEAR_ORIGIN),
   ("infinity", .CMD_INFINITY),
   ("distanceBySample", .CMD_DISTANCE_BY_SAMPLE),
   ("closestPointBySample", .CMD_CLOSEST_BY_SAMPLE),
   ("bbTriangles", .CMD_BB_TRIANGLES)]
  ++ CMD_MAP_LIST.map (fun e => (e.1, CMD_LIST.VIRTUAL e.2))

/-- A handler of this file fails by a `std::exception` carrying its text. -/
def handler_call {α : Type} (r : Except String α) : Except Thrown α :=
  match r with
  | .ok v => pure v
  | .error msg => throw (Thrown.std msg)

/-- The `switch` of `mexFunction`. -/
def mexFunction_switch [LinearOrderedField K] (ext : External K)
    (idx : CMD_LIST) (objs : List (ClothoidCurve K)) (nlhs : Nat)
    (prhs : List (mxArray K)) :
    Except Thrown (List (ClothoidCurve K) × List (mxArray K)) :=
  match idx with
  | .CMD_NEW => handler_call (do_new objs nlhs prhs)
  | .CMD_BUILD => handler_call (do_build objs nlhs prhs)
  | .CMD_BUILD_G1 => handler_call (do_build_G1 ext.build_G1 objs nlhs prhs)
  | .CMD_BUILD_G1_D => handler_call (do_build_G1_D ext.build_G1 objs nlhs prhs)
  | .CMD_BUILD_FORWARD =>
    handler_call (do_build_forward ext.build_forward objs nlhs prhs)
  | .CMD_KAPPA_BEGIN => handler_call (do_k_begin objs nlhs prhs)
  | .CMD_KAPPA_END => handler_call (do_k_end objs nlhs prhs)
  | .CMD_KAPPA_D => handler_call (do_k_D objs nlhs prhs)
  | .CMD_CHANGE_CURVILINEAR_ORIGIN =>
    handler_call (do_change_curvilinear_origin ext.origin_at objs nlhs prhs)
  | .CMD_INFINITY => handler_call (do_infinity ext.Pinfinity objs nlhs prhs)
  | .CMD_DISTANCE_BY_SAMPLE =>
    handler_call (do_distance_by_sample ext.stream_real
      ext.closestPointBySample objs nlhs prhs)
  | .CMD_CLOSEST_BY_SAMPLE =>
    handler_call (do_closest_by_sample ext.stream_real
      ext.closestPointBySample objs nlhs prhs)
  | .CMD_BB_TRIANGLES =>
    handler_call (do_bbTriangles ext.m_pi ext.bbTriangles objs nlhs prhs)
  | .VIRTUAL n => ext.CMD_CASE_LIST n objs nlhs prhs

/-- The block under `try` in `mexFunction`: the first argument must be a
string, `cmd_to_idx.at(cmd)` throws `std::out_of_range` for a key that is not
in the map, and the `switch` runs the handler. -/
def mexFunction_try [LinearOrderedField K] (ext : External K)
    (objs : List (ClothoidCurve K)) (nlhs : Nat) (prhs : List (mxArray K)) :
    Except Thrown (List (ClothoidCurve K) × List (mxArray K)) := do
  let arg_in_0 ← handler_call (arg_in prhs 0)
  handler_call (MEX_ASSERT (mxIsChar arg_in_0) "First argument must be a string")
  match mxArrayToString arg_in_0 with
  | none => throw Thrown.other
  | some cmd =>
    match (cmd_to_idx ext.CMD_MAP_LIST).lookup cmd with
    | none => throw (Thrown.std ext.out_of_range_what)
    | some idx => mexFunction_switch ext idx objs nlhs prhs

/-- How a call of `mexFunction` ends: it returns to the host with the object
table and the outputs, or it reports a text through `mexErrMsgTxt`, or a thrown
object leaves the function. -/
inductive HostOutcome (K : Type) where
  | returned (objs : List (ClothoidCurve K)) (plhs : List (mxArray K))
  | errMsgTxt (msg : String)
  | escaped (t : Thrown)

/-- `mexFunction(nlhs,plhs,nrhs,prhs)`: with no argument the usage text is
reported; otherwise the block under `try` runs, with
`catch ( exception const & e ) { mexErrMsgTxt(e.what()); }` and
`catch (...) { mexErrMsgTxt("ClothoidCurve failed\n"); }`. -/
def mexFunction [LinearOrderedField K] (ext : External K)
    (objs : List (ClothoidCurve K)) (nlhs : Nat) (prhs : List (mxArray K)) :
    HostOutcome K :=
  if prhs.length == 0 then
    .errMsgTxt MEX_ERROR_MESSAGE
  else
    match mexFunction_try ext objs nlhs prhs with
    | .ok (objs, plhs) => .returned objs plhs
    | .error (.std what) => .errMsgTxt what
    | .error .other => .errMsgTxt "ClothoidCurve failed\n"

/-! ## The triangle bounding box -/

/-- The six coordinates `bbTriangle` writes through `xx0 yy0 xx1 yy1 xx2 yy2`.
-/
structure TriangleCoordinates (K : Type) where
  x0 : K
  y0 : K
  x1 : K
  y1 : K
  x2 : K
  y2 : K
deriving DecidableEq

/-- The interface of `ClothoidData::bbTriangle(L,xx0,yy0,xx1,yy1,xx2,yy2)`,
defined outside the sources at hand: the receiver and `L`; the value is the
returned `bool` and the six coordinates after the call.  The six references
are outputs only: the `Triangle2D` overloads hand in locals that hold no value
yet. -/
abbrev CDbbTriangle (K : Type) : Type :=
  ClothoidData K → K → Bool × TriangleCoordinates K

/-- The interface of `ClothoidData::bbTriangle(L,offs,xx0,yy0,xx1,yy1,xx2,yy2)`,
defined outside the sources at hand: the receiver, `L` and `offs`. -/
abbrev CDbbTriangleOffs (K : Type) : Type :=
  ClothoidData K → K → K → Bool × TriangleCoordinates K

/-- The interface of `Triangle2D::build(x0,y0,x1,y1,x2,y2)`, defined in
`Triangle2D.hh`: the receiver and the six coordinates; the value is the
receiver after the call. -/
abbrev Triangle2Dbuild (K : Type) : Type :=
  Triangle2D K → K → K → K → K → K → K → Triangle2D K

namespace ClothoidCurve

/-- `bbTriangle(xx0,yy0,xx1,yy1,xx2,yy2)`:
`return CD.bbTriangle( L, xx0, yy0, xx1, yy1, xx2, yy2 );`. -/
def bbTriangle (CD_bbTriangle : CDbbTriangle K) (c : ClothoidCurve K) :
    Bool × TriangleCoordinates K :=
  CD_bbTriangle c.CD c.L

/-- `bbTriangle(offs,xx0,yy0,xx1,yy1,xx2,yy2)`:
`return CD.bbTriangle( L, offs, xx0, yy0, xx1, yy1, xx2, yy2 );`. -/
def bbTriangle_offs (CD_bbTriangle : CDbbTriangleOffs K) (c : ClothoidCurve K)
    (offs : K) : Bool × TriangleCoordinates K :=
  CD_bbTriangle c.CD c.L offs

/-- `bbTriangle(Triangle2D & t)`:
`bool ok = CD.bbTriangle( L, x0, y0, x1, y1, x2, y2 );`
`if ( ok ) t.build( x0, y0, x1, y1, x2, y2 ); return ok;`
The pair is the returned `bool` and `t` after the call. -/
def bbTriangle_T (CD_bbTriangle : CDbbTriangle K) (T_build : Triangle2Dbuild K)
    (c : ClothoidCurve K) (t : Triangle2D K) : Bool × Triangle2D K :=
  let (ok, p) := CD_bbTriangle c.CD c.L
  let t := if ok then T_build t p.x0 p.y0 p.x1 p.y1 p.x2 p.y2 else t
  (ok, t)

/-- `bbTriangle(offs,Triangle2D & t)`:
`bool ok = CD.bbTriangle( L, offs, x0, y0, x1, y1, x2, y2 );`
`if ( ok ) t.build( x0, y0, x1, y1, x2, y2 ); return ok;`. -/
def bbTriangle_offs_T (CD_bbTriangle : CDbbTriangleOffs K)
    (T_build : Triangle2Dbuild K) (c : ClothoidCurve K) (offs : K)
    (t : Triangle2D K) : Bool × Triangle2D K :=
  let (ok, p) := CD_bbTriangle c.CD c.L offs
  let t := if ok then T_build t p.x0 p.y0 p.x1 p.y1 p.x2 p.y2 else t
  (ok, t)

end ClothoidCurve

/-! ## Projections of `G2lib.hh`

`valueType` is the field `K`, here with its order.  `Atanc` and `atan2` and
the constants `m_pi`, `m_2pi` are declared in `G2lib.hh` or `<cmath>` and
defined elsewhere: they are parameters. -/

/-- `projectPointOnLine(x0,y0,c0,s0,x,y)`:
`dx = x - x0; dy = y - y0; return (s0 * dy + c0 * dx);`. -/
def projectPointOnLine [Field K] (x0 y0 c0 s0 x y : K) : K :=
  let dx := x - x0
  let dy := y - y0
  s0 * dy + c0 * dx

/-- `projectPointOnCircle(x0,y0,c0,s0,k,L,qx,qy)`, statement by statement. -/
def projectPointOnCircle [LinearOrderedField K] (Atanc : K → K)
    (atan2 : K → K → K) (m_pi m_2pi : K) (x0 y0 c0 s0 k L qx qy : K) : K :=
  let dx := x0 - qx
  let dy := y0 - qy
  let a0 := c0 * dy - s0 * dx
  let b0 := s0 * dy + c0 * dx
  let tmp := a0 * k
  if 1 + 2 * tmp > 0 then
    let tmp := b0 / (1 + tmp)
    let tmp := tmp * -Atanc (tmp * k)
    if tmp < 0 then
      let absk := |k|
      if m_2pi ≤ absk * (L - tmp) then tmp + m_2pi / absk else tmp
    else tmp
  else
    let om := atan2 b0 (a0 + 1 / k)
    let om := if k < 0 then om + m_pi else om
    let ss := -om / k
    let t := m_2pi / |k|
    if ss < 0 then ss + t
    else if ss > t then ss + t
    else ss

/-- A division that records a zero divisor instead of yielding a value. -/
def checked_div [Field K] [DecidableEq K] (a b : K) : Option K :=
  if b = 0 then none else some (a / b)

/-- `projectPointOnCircle` once more, statement by statement, with each of its
five divisions checked: `none` when a division with a zero divisor is
evaluated. -/
def projectPointOnCircle_checked [LinearOrderedField K] (Atanc : K → K)
    (atan2 : K → K → K) (m_pi m_2pi : K) (x0 y0 c0 s0 k L qx qy : K) :
    Option K := do
  let dx := x0 - qx
  let dy := y0 - qy
  let a0 := c0 * dy - s0 * dx
  let b0 := s0 * dy + c0 * dx
  let tmp := a0 * k
  if 1 + 2 * tmp > 0 then
    let tmp ← checked_div b0 (1 + tmp)
    let tmp := tmp * -Atanc (tmp * k)
    if tmp < 0 then
      let absk := |k|
      if m_2pi ≤ absk * (L - tmp) then
        let q ← checked_div m_2pi absk
        return tmp + q
      else return tmp
    else return tmp
  else
    let inv_k ← checked_div 1 k
    let om := atan2 b0 (a0 + inv_k)
    let om := if k < 0 then om + m_pi else om
    let ss ← checked_div (-om) k
    let t ← checked_div m_2pi |k|
    if ss < 0 then return ss + t
    else if ss > t then return ss + t
    else return ss

/-- The local `a0` of `projectPointOnCircle`: `c0 * dy - s0 * dx` with
`dx = x0 - qx` and `dy = y0 - qy`. -/
def projectPointOnCircle_a0 [Field K] (x0 y0 c0 s0 qx qy : K) : K :=
  c0 * (y0 - qy) - s0 * (x0 - qx)

/-- The local `b0` of `projectPointOnCircle`: `s0 * dy + c0 * dx`. -/
def projectPointOnCircle_b0 [Field K] (x0 y0 c0 s0 qx qy : K) : K :=
  s0 * (y0 - qy) + c0 * (x0 - qx)

/-- The local `tmp` of the first branch of `projectPointOnCircle` when
`if ( tmp < 0 )` is reached: after `tmp = b0/(1+tmp); tmp *= -Atanc(tmp*k);`.
-/
def projectPointOnCircle_raw [Field K] (Atanc : K → K)
    (x0 y0 c0 s0 k qx qy : K) : K :=
  projectPointOnCircle_b0 x0 y0 c0 s0 qx qy
      / (1 + projectPointOnCircle_a0 x0 y0 c0 s0 qx qy * k)
    * -Atanc (projectPointOnCircle_b0 x0 y0 c0 s0 qx qy
      / (1 + projectPointOnCircle_a0 x0 y0 c0 s0 qx qy * k) * k)

/-- The local `ss` of the second branch of `projectPointOnCircle` when
`if ( ss < 0 )` is reached: `-om/k`, with `om = atan2( b0, a0+1/k )` and
`om += m_pi` under `k < 0`. -/
def projectPointOnCircle_ss [LinearOrderedField K] (atan2 : K → K → K)
    (m_pi : K) (x0 y0 c0 s0 k qx qy : K) : K :=
  -(if k < 0 then
      atan2 (projectPointOnCircle_b0 x0 y0 c0 s0 qx qy)
        (projectPointOnCircle_a0 x0 y0 c0 s0 qx qy + 1 / k) + m_pi
    else
      atan2 (projectPointOnCircle_b0 x0 y0 c0 s0 qx qy)
        (projectPointOnCircle_a0 x0 y0 c0 s0 qx qy + 1 / k)) / k

/-! ## Theorems -/

/-- C1: for every curve and every scale factor `s ≠ 0`, `scale(s)` yields
`kappa0/s`, `dk/(s*s)` and `L*s` and leaves `x0`, `y0` and `theta0`
unchanged. -/
theorem scale_parameters [Field K] (c : ClothoidCurve K) (s : K) (_hs : s ≠ 0) :
    (c.scale s).CD.kappa0 = c.CD.kappa0 / s ∧
    (c.scale s).CD.dk = c.CD.dk / (s * s) ∧
    (c.scale s).L = c.L * s ∧
    (c.scale s).CD.x0 = c.CD.x0 ∧
    (c.scale s).CD.y0 = c.CD.y0 ∧
    (c.scale s).CD.theta0 = c.CD.theta0 :=
  ⟨rfl, rfl, rfl, rfl, rfl, rfl⟩

/-- Witness of C1: the curve `(1,2,3,4,6,5)` scaled by `2`. -/
theorem scale_parameters_witness :
    (2 : ℚ) ≠ 0 ∧
    ((ClothoidCurve.mk6 (1 : ℚ) 2 3 4 6 5).scale 2).CD.kappa0 = 4 / 2 ∧
    ((ClothoidCurve.mk6 (1 : ℚ) 2 3 4 6 5).scale 2).CD.dk = 6 / (2 * 2) ∧
    ((ClothoidCurve.mk6 (1 : ℚ) 2 3 4 6 5).scale 2).L = 5 * 2 ∧
    ((ClothoidCurve.mk6 (1 : ℚ) 2 3 4 6 5).scale 2).CD.x0 = 1 ∧
    ((ClothoidCurve.mk6 (1 : ℚ) 2 3 4 6 5).scale 2).CD.y0 = 2 ∧
    ((ClothoidCurve.mk6 (1 : ℚ) 2 3 4 6 5).scale 2).CD.theta0 = 3 :=
  ⟨by norm_num, scale_parameters (ClothoidCurve.mk6 (1 : ℚ) 2 3 4 6 5) 2 (by norm_num)⟩

/-- C2: `scale` preserves the shape.  For every curve, every `s ≠ 0` and every
`u`, the scaled curve has at `s*u` the heading the curve has at `u`, and the
curvature the curve has at `u` divided by `s`; `thetaEnd()` is unchanged and
`kappaEnd()` is divided by `s`. -/
theorem scale_shape_preserving [Field K] (c : ClothoidCurve K) (s u : K)
    (hs : s ≠ 0) :
    (c.scale s).theta (s * u) = c.theta u ∧
    (c.scale s).kappa (s * u) = c.kappa u / s ∧
    (c.scale s).thetaEnd = c.thetaEnd ∧
    (c.scale s).kappaEnd = c.kappaEnd / s := by
  simp only [ClothoidCurve.theta, ClothoidCurve.kappa, ClothoidCurve.thetaEnd,
    ClothoidCurve.kappaEnd, ClothoidCurve.scale, ClothoidData.theta,
    ClothoidData.kappa]
  refine ⟨?_, ?_, ?_, ?_⟩
  · have h1 : c.CD.kappa0 / s * (s * u) = c.CD.kappa0 * u := by
      field_simp
      ring
    have h2 : c.CD.dk / (s * s) * (s * u) ^ 2 = c.CD.dk * u ^ 2 := by
      field_simp
      ring
    rw [h1, h2]
  · field_simp
    ring
  · have h1 : c.CD.kappa0 / s * (c.L * s) = c.CD.kappa0 * c.L := by
      field_simp
      ring
    have h2 : c.CD.dk / (s * s) * (c.L * s) ^ 2 = c.CD.dk * c.L ^ 2 := by
      field_simp
      ring
    rw [h1, h2]
  · field_simp
    ring

/-- Witness of C2: the curve `(1,2,3,4,6,5)` scaled by `2`, read at `2*7`. -/
theorem scale_shape_preserving_witness :
    (2 : ℚ) ≠ 0 ∧
    ((ClothoidCurve.mk6 (1 : ℚ) 2 3 4 6 5).scale 2).theta (2 * 7)
      = (ClothoidCurve.mk6 (1 : ℚ) 2 3 4 6 5).theta 7 ∧
    ((ClothoidCurve.mk6 (1 : ℚ) 2 3 4 6 5).scale 2).kappa (2 * 7)
      = (ClothoidCurve.mk6 (1 : ℚ) 2 3 4 6 5).kappa 7 / 2 ∧
    ((ClothoidCurve.mk6 (1 : ℚ) 2 3 4 6 5).scale 2).thetaEnd
      = (ClothoidCurve.mk6 (1 : ℚ) 2 3 4 6 5).thetaEnd ∧
    ((ClothoidCurve.mk6 (1 : ℚ) 2 3 4 6 5).scale 2).kappaEnd
      = (ClothoidCurve.mk6 (1 : ℚ) 2 3 4 6 5).kappaEnd / 2 :=
  ⟨by norm_num,
    scale_shape_preserving (ClothoidCurve.mk6 (1 : ℚ) 2 3 4 6 5) 2 7 (by norm_num)⟩

/-- C3, as stated, fails: the curve `(0,0,0,0,0,1)` has `L = 1 ≥ 0`, and after
`scale(-1)` its length is `-1`. -/
theorem length_nonneg_broken_by_scale :
    0 ≤ (ClothoidCurve.mk6 (0 : ℚ) 0 0 0 0 1).L ∧
    ((ClothoidCurve.mk6 (0 : ℚ) 0 0 0 0 1).scale (-1)).L = -1 ∧
    ¬ 0 ≤ ((ClothoidCurve.mk6 (0 : ℚ) 0 0 0 0 1).scale (-1)).L := by
  norm_num [ClothoidCurve.scale, ClothoidCurve.mk6]

/-- C3, amended: starting from a curve with `L ≥ 0`, `translate`, `rotate`,
`reverse` and `changeOrigin` yield `L ≥ 0` for all their arguments; `scale(s)`
yields `L ≥ 0` for every `s ≥ 0`; `trim(s_begin,s_end)` yields `L ≥ 0` exactly
when `s_begin ≤ s_end`; `changeCurvilinearOrigin(s0,newL)` yields `L ≥ 0`
exactly when `newL ≥ 0`. -/
theorem length_nonneg_preserved [LinearOrderedField K]
    (CD_rotate : ClothoidData K → K → K → K → ClothoidData K)
    (CD_reverse : ClothoidData K → K → ClothoidData K)
    (origin_at : ClothoidData K → K → ClothoidData K)
    (c : ClothoidCurve K) (hL : 0 ≤ c.L) :
    (∀ tx ty, 0 ≤ (c.translate tx ty).L) ∧
    (∀ angle cx cy, 0 ≤ (c.rotate CD_rotate angle cx cy).L) ∧
    0 ≤ (c.reverse CD_reverse).L ∧
    (∀ newx0 newy0, 0 ≤ (c.changeOrigin newx0 newy0).L) ∧
    (∀ s, 0 ≤ s → 0 ≤ (c.scale s).L) ∧
    (∀ s_begin s_end, 0 ≤ (c.trim origin_at s_begin s_end).L ↔ s_begin ≤ s_end) ∧
    (∀ s0 newL, 0 ≤ (c.changeCurvilinearOrigin origin_at s0 newL).L ↔ 0 ≤ newL) := by
  refine ⟨fun _ _ => hL, fun _ _ _ => hL, hL, fun _ _ => hL, ?_, ?_, ?_⟩
  · intro s hs
    exact mul_nonneg hL hs
  · intro s_begin s_end
    exact sub_nonneg
  · intro s0 newL
    exact Iff.rfl

/-- Witness of C3 (amended): the curve `(0,0,0,0,0,1)`, with the absent
`ClothoidData` methods taken as the identity on the data. -/
theorem length_nonneg_preserved_witness :
    0 ≤ (ClothoidCurve.mk6 (0 : ℚ) 0 0 0 0 1).L ∧
    0 ≤ ((ClothoidCurve.mk6 (0 : ℚ) 0 0 0 0 1).scale 2).L ∧
    (0 ≤ ((ClothoidCurve.mk6 (0 : ℚ) 0 0 0 0 1).trim (fun cd _ => cd) 3 1).L
      ↔ (3 : ℚ) ≤ 1) :=
  have h := length_nonneg_preserved (fun cd _ _ _ => cd) (fun cd _ => cd)
    (fun cd _ => cd) (ClothoidCurve.mk6 (0 : ℚ) 0 0 0 0 1)
    (by norm_num [ClothoidCurve.mk6])
  ⟨by norm_num [ClothoidCurve.mk6], h.2.2.2.2.1 2 (by norm_num), h.2.2.2.2.2.1 3 1⟩

/-- C4: for every curve and all `s_begin`, `s_end`, after `trim(s_begin,s_end)`
`length()` is `s_end - s_begin` and the data is `origin_at(s_begin)` of the
previous data; the previous length has no influence on the result. -/
theorem trim_result [Field K] (origin_at : ClothoidData K → K → ClothoidData K)
    (c : ClothoidCurve K) (s_begin s_end : K) :
    (c.trim origin_at s_begin s_end).length = s_end - s_begin ∧
    (c.trim origin_at s_begin s_end).CD = origin_at c.CD s_begin ∧
    (∀ L0 : K, ({ c with L := L0 } : ClothoidCurve K).trim origin_at s_begin s_end
      = c.trim origin_at s_begin s_end) :=
  ⟨rfl, rfl, fun _ => rfl⟩

/-- C5: for every curve and every offset, `length(offs)` raises the assertion
failure "Offset length not available for Clothoids" (the `runtime_error` of
`G2LIB_ASSERT`, with line 709) and returns no value, whereas `length()`
returns `L`. -/
theorem length_offs_raises [Field K] (file : String) (c : ClothoidCurve K)
    (offs : K) :
    c.length_offs file offs
      = Except.error ⟨"On line: 709 file: " ++ file ++
          "\nOffset length not available for Clothoids\n"⟩ ∧
    (∀ v : K, c.length_offs file offs ≠ Except.ok v) ∧
    c.length = c.L := by
  have h : toString (709 : Nat) = "709" := by rfl
  have h1 : "On line: " ++ "709" ++ " file: " = "On line: 709 file: " := by
    decide
  have h2 : "\n" ++ ("Offset length not available for Clothoids" ++ "\n")
      = "\nOffset length not available for Clothoids\n" := by decide
  have key : c.length_offs file offs
      = Except.error ⟨"On line: 709 file: " ++ file ++
          "\nOffset length not available for Clothoids\n"⟩ := by
    simp only [ClothoidCurve.length_offs, G2LIB_ASSERT, G2LIB_ASSERT_text, h]
    rw [h1, String.append_assoc, String.append_assoc, h2]
    rfl
  refine ⟨key, ?_, rfl⟩
  intro v hv
  rw [key] at hv
  cases hv

/-- C7: after `build(x0,y0,theta0,k,dk,L)`, and equally after the
six-parameter constructor, the accessors return the six arguments; after the
default constructor all six return `0`. -/
theorem build_accessors_roundtrip [Field K] (c : ClothoidCurve K)
    (x0 y0 theta0 k dk L : K) :
    ((c.build x0 y0 theta0 k dk L).xBegin = x0 ∧
      (c.build x0 y0 theta0 k dk L).yBegin = y0 ∧
      (c.build x0 y0 theta0 k dk L).thetaBegin = theta0 ∧
      (c.build x0 y0 theta0 k dk L).kappaBegin = k ∧
      (c.build x0 y0 theta0 k dk L).dkappa = dk ∧
      (c.build x0 y0 theta0 k dk L).length = L) ∧
    ((ClothoidCurve.mk6 x0 y0 theta0 k dk L).xBegin = x0 ∧
      (ClothoidCurve.mk6 x0 y0 theta0 k dk L).yBegin = y0 ∧
      (ClothoidCurve.mk6 x0 y0 theta0 k dk L).thetaBegin = theta0 ∧
      (ClothoidCurve.mk6 x0 y0 theta0 k dk L).kappaBegin = k ∧
      (ClothoidCurve.mk6 x0 y0 theta0 k dk L).dkappa = dk ∧
      (ClothoidCurve.mk6 x0 y0 theta0 k dk L).length = L) ∧
    ((ClothoidCurve.default : ClothoidCurve K).xBegin = 0 ∧
      (ClothoidCurve.default : ClothoidCurve K).yBegin = 0 ∧
      (ClothoidCurve.default : ClothoidCurve K).thetaBegin = 0 ∧
      (ClothoidCurve.default : ClothoidCurve K).kappaBegin = 0 ∧
      (ClothoidCurve.default : ClothoidCurve K).dkappa = 0 ∧
      (ClothoidCurve.default : ClothoidCurve K).length = 0) :=
  ⟨⟨rfl, rfl, rfl, rfl, rfl, rfl⟩, ⟨rfl, rfl, rfl, rfl, rfl, rfl⟩,
    ⟨rfl, rfl, rfl, rfl, rfl, rfl⟩⟩

/-- C8: a clothoid built from a `LineSegment` copies `x0`, `y0`, `theta0`, `L`
and has `kappa0 = 0` and `dk = 0`, so its curvature `kappa0 + dk*s` is `0` and
its heading `theta0 + kappa0*s + dk*s^2/2` is `theta0` for every `s`; one built
from a `CircleArc` copies `x0`, `y0`, `theta0`, `L` and has `kappa0 = k` and
`dk = 0`, so its curvature is `k` for every `s`.  The constructor and the
`build` form give the same curve. -/
theorem degenerate_construction [Field K] (LS : LineSegment K) (C : CircleArc K)
    (c : ClothoidCurve K) (s : K) :
    ClothoidCurve.ofLineSegment LS
      = ClothoidCurve.mk6 LS.x0 LS.y0 LS.theta0 0 0 LS.L ∧
    (ClothoidCurve.ofLineSegment LS).CD.kappa0
      + (ClothoidCurve.ofLineSegment LS).CD.dk * s = 0 ∧
    (ClothoidCurve.ofLineSegment LS).CD.theta0
      + (ClothoidCurve.ofLineSegment LS).CD.kappa0 * s
      + (ClothoidCurve.ofLineSegment LS).CD.dk * s ^ 2 / 2 = LS.theta0 ∧
    ClothoidCurve.ofCircleArc C
      = ClothoidCurve.mk6 C.x0 C.y0 C.theta0 C.k 0 C.L ∧
    (ClothoidCurve.ofCircleArc C).CD.kappa0
      + (ClothoidCurve.ofCircleArc C).CD.dk * s = C.k ∧
    c.buildLineSegment LS = ClothoidCurve.ofLineSegment LS ∧
    c.buildCircleArc C = ClothoidCurve.ofCircleArc C := by
  refine ⟨rfl, ?_, ?_, rfl, ?_, rfl, rfl⟩
  · simp [ClothoidCurve.ofLineSegment]
  · simp [ClothoidCurve.ofLineSegment]
  · simp [ClothoidCurve.ofCircleArc]

/-- C9: for every curve and every `s`, `theta_D(s) = kappa(s) = kappa0 + dk*s`
is the derivative at `s` of the heading `theta0 + kappa0*s + dk*s^2/2`;
`theta_DD(s) = kappa_D(s) = dk` is the derivative at `s` of `kappa`; and
`theta_DDD(s) = kappa_DD(s) = kappa_DDD(s) = 0`. -/
theorem derivative_accessors (c : ClothoidCurve ℝ) (s : ℝ) :
    c.theta s = c.CD.theta0 + c.CD.kappa0 * s + c.CD.dk * s ^ 2 / 2 ∧
    c.theta_D s = c.kappa s ∧
    c.kappa s = c.CD.kappa0 + c.CD.dk * s ∧
    HasDerivAt (fun u => c.theta u) (c.theta_D s) s ∧
    c.theta_DD s = c.kappa_D s ∧
    c.kappa_D s = c.CD.dk ∧
    HasDerivAt (fun u => c.kappa u) (c.kappa_D s) s ∧
    c.theta_DDD s = 0 ∧ c.kappa_DD s = 0 ∧ c.kappa_DDD s = 0 := by
  refine ⟨rfl, rfl, rfl, ?_, rfl, rfl, ?_, rfl, rfl, rfl⟩
  · simp only [ClothoidCurve.theta, ClothoidCurve.theta_D, ClothoidData.theta,
      ClothoidData.kappa]
    have h1 : HasDerivAt (fun u : ℝ => c.CD.kappa0 * u) c.CD.kappa0 s := by
      simpa using (hasDerivAt_id s).const_mul c.CD.kappa0
    have h2 : HasDerivAt (fun u : ℝ => c.CD.dk * u ^ 2 / 2) (c.CD.dk * s) s := by
      have h := ((hasDerivAt_pow 2 s).const_mul c.CD.dk).div_const 2
      convert h using 1
      push_cast
      ring
    exact ((hasDerivAt_const s c.CD.theta0).add h1).add h2 |>.congr_deriv (by ring)
  · simp only [ClothoidCurve.kappa, ClothoidCurve.kappa_D, ClothoidData.kappa]
    have h1 : HasDerivAt (fun u : ℝ => c.CD.dk * u) c.CD.dk s := by
      simpa using (hasDerivAt_id s).const_mul c.CD.dk
    exact ((hasDerivAt_const s c.CD.kappa0).add h1).congr_deriv (by ring)

/-- C10: `translate(tx,ty)` changes only the start point: the result has
`x0+tx` and `y0+ty`, and `theta0`, `kappa0`, `dk` and `L` are unchanged. -/
theorem translate_frame [Field K] (c : ClothoidCurve K) (tx ty : K) :
    (c.translate tx ty).CD.x0 = c.CD.x0 + tx ∧
    (c.translate tx ty).CD.y0 = c.CD.y0 + ty ∧
    (c.translate tx ty).CD.theta0 = c.CD.theta0 ∧
    (c.translate tx ty).CD.kappa0 = c.CD.kappa0 ∧
    (c.translate tx ty).CD.dk = c.CD.dk ∧
    (c.translate tx ty).L = c.L :=
  ⟨rfl, rfl, rfl, rfl, rfl, rfl⟩

/-- C11, as stated, fails for the binding.  With `m_pi` the double nearest to
pi and a decomposition that records the `max_angle`, `max_size` and `offs` it
is handed in the first triangle, the 'bbTriangles' command called with only the
object argument is seen to pass `m_pi/18`, which is not `m_pi/6`. -/
theorem bbTriangles_binding_default_is_not_pi_6 :
    do_bbTriangles (884279719003555 / 281474976710656 : ℚ)
        (fun _ offs tvec max_angle max_size =>
          tvec ++ [⟨max_angle, max_size, offs, 0, 0, 0⟩])
        [ClothoidCurve.default] 3 [.chars "bbTriangles", .objptr 0]
      = .ok ([ClothoidCurve.default],
          [.matrix 2 1 [884279719003555 / 281474976710656 / 18, bbTriangles_max_size],
           .matrix 2 1 [0, 0], .matrix 2 1 [0, 0]]) ∧
    (884279719003555 / 281474976710656 / 18 : ℚ)
      ≠ bbTriangles_max_angle (884279719003555 / 281474976710656) := by
  refine ⟨rfl, ?_⟩
  norm_num [bbTriangles_max_angle]

/-- C11, amended: when the caller does not supply them, both C++ overloads of
`bbTriangles` use `max_angle = m_pi/6` and `max_size = 1e100` (and the overload
without offset uses `offs = 0`); the 'bbTriangles' command called with only the
object argument, and three outputs, decomposes with `max_angle = m_pi/18`,
`max_size = 1e100` and `offs = 0`, starting from an empty `tvec`. -/
theorem bbTriangles_default_arguments [Field K] (impl : BBTrianglesImpl K)
    (m_pi : K) (c : ClothoidCurve K) (offs : K) (tvec : List (Triangle2D K))
    (objs : List (ClothoidCurve K)) (id : Nat) (cmd : mxArray K)
    (hid : objs[id]? = some c) :
    c.bbTriangles_defaults impl m_pi tvec = impl c 0 tvec (m_pi / 6) 1e100 ∧
    c.bbTriangles_offs_defaults impl m_pi offs tvec
      = impl c offs tvec (m_pi / 6) 1e100 ∧
    do_bbTriangles m_pi impl objs 3 [cmd, .objptr id]
      = .ok (objs,
          [.matrix 2 (impl c 0 [] (m_pi / 18) 1e100).length
              ((impl c 0 [] (m_pi / 18) 1e100).map (fun t => [t.x1, t.y1])).flatten,
           .matrix 2 (impl c 0 [] (m_pi / 18) 1e100).length
              ((impl c 0 [] (m_pi / 18) 1e100).map (fun t => [t.x2, t.y2])).flatten,
           .matrix 2 (impl c 0 [] (m_pi / 18) 1e100).length
              ((impl c 0 [] (m_pi / 18) 1e100).map (fun t => [t.x3, t.y3])).flatten]) := by
  refine ⟨rfl, rfl, ?_⟩
  simp [do_bbTriangles, MEX_ASSERT, arg_in, DATA_GET, hid,
    ClothoidCurve.bbTriangles, bind, Except.bind, pure, Except.pure]

/-- Witness of C11 (amended): the object table holds the default curve and the
decomposition records its arguments in one triangle. -/
theorem bbTriangles_default_arguments_witness :
    [(ClothoidCurve.default : ClothoidCurve ℚ)][0]? = some ClothoidCurve.default ∧
    (ClothoidCurve.default : ClothoidCurve ℚ).bbTriangles_defaults
        (fun _ offs tvec max_angle max_size =>
          tvec ++ [⟨max_angle, max_size, offs, 0, 0, 0⟩]) 3 []
      = [⟨3 / 6, bbTriangles_max_size, 0, 0, 0, 0⟩] ∧
    do_bbTriangles (3 : ℚ)
        (fun _ offs tvec max_angle max_size =>
          tvec ++ [⟨max_angle, max_size, offs, 0, 0, 0⟩])
        [ClothoidCurve.default] 3 [.chars "bbTriangles", .objptr 0]
      = .ok ([ClothoidCurve.default],
          [.matrix 2 1 [3 / 18, bbTriangles_max_size], .matrix 2 1 [0, 0],
           .matrix 2 1 [0, 0]]) := by
  have h := bbTriangles_default_arguments
    (fun _ offs tvec max_angle max_size =>
      tvec ++ [⟨max_angle, max_size, offs, 0, 0, 0⟩])
    (3 : ℚ) ClothoidCurve.default 0 [] [ClothoidCurve.default] 0
    (.chars "bbTriangles") rfl
  have h2 := h.2.2
  simp only [List.nil_append, List.length_singleton, List.map_cons,
    List.map_nil, List.flatten] at h2
  exact ⟨rfl, h.1, h2⟩

/-- C13: the binding lets no thrown failure leave `mexFunction`.  A call with
no argument reports the usage text.  Otherwise whatever the block under `try`
throws is reported through `mexErrMsgTxt`: the text of `what()` for a
`std::exception`, "ClothoidCurve failed" for anything else.  This covers a
first argument that is not a string, a command name that is not in the map,
and every failure raised by the handler of the command. -/
theorem mexFunction_reports_failures [LinearOrderedField K] (ext : External K)
    (objs : List (ClothoidCurve K)) (nlhs : Nat) (prhs : List (mxArray K)) :
    (∀ t, mexFunction ext objs nlhs prhs ≠ .escaped t) ∧
    (prhs = [] → mexFunction ext objs nlhs prhs = .errMsgTxt MEX_ERROR_MESSAGE) ∧
    (∀ what, prhs ≠ [] →
      mexFunction_try ext objs nlhs prhs = .error (.std what) →
      mexFunction ext objs nlhs prhs = .errMsgTxt what) ∧
    (prhs ≠ [] → mexFunction_try ext objs nlhs prhs = .error .other →
      mexFunction ext objs nlhs prhs = .errMsgTxt "ClothoidCurve failed\n") ∧
    (∀ a rest, prhs = a :: rest → mxIsChar a = false →
      mexFunction ext objs nlhs prhs
        = .errMsgTxt "First argument must be a string") ∧
    (∀ cmd rest, prhs = .chars cmd :: rest →
      (cmd_to_idx ext.CMD_MAP_LIST).lookup cmd = none →
      mexFunction ext objs nlhs prhs = .errMsgTxt ext.out_of_range_what) ∧
    (∀ cmd rest idx what, prhs = .chars cmd :: rest →
      (cmd_to_idx ext.CMD_MAP_LIST).lookup cmd = some idx →
      mexFunction_switch ext idx objs nlhs prhs = .error (.std what) →
      mexFunction ext objs nlhs prhs = .errMsgTxt what) ∧
    (∀ cmd rest idx, prhs = .chars cmd :: rest →
      (cmd_to_idx ext.CMD_MAP_LIST).lookup cmd = some idx →
      mexFunction_switch ext idx objs nlhs prhs = .error .other →
      mexFunction ext objs nlhs prhs = .errMsgTxt "ClothoidCurve failed\n") := by
  have hlen : ∀ a rest, prhs = a :: rest → (prhs.length == 0) = false := by
    intro a rest h
    simp [h]
  have hne : prhs ≠ [] → (prhs.length == 0) = false := by
    intro h
    cases prhs with
    | nil => exact absurd rfl h
    | cons a rest => simp
  refine ⟨?_, ?_, ?_, ?_, ?_, ?_, ?_, ?_⟩
  · intro t
    unfold mexFunction
    split
    · intro h
      cases h
    · split <;> intro h <;> cases h
  · intro h
    simp [mexFunction, h]
  · intro what h ht
    simp [mexFunction, hne h, ht]
  · intro h ht
    simp [mexFunction, hne h, ht]
  · intro a rest h ha
    have ht : mexFunction_try ext objs nlhs prhs
        = .error (.std "First argument must be a string") := by
      simp [mexFunction_try, h, arg_in, handler_call, MEX_ASSERT, ha, bind,
        Except.bind, pure, Except.pure, throw, throwThe, MonadExceptOf.throw]
    simp [mexFunction, hlen a rest h, ht]
  · intro cmd rest h hl
    have ht : mexFunction_try ext objs nlhs prhs
        = .error (.std ext.out_of_range_what) := by
      simp [mexFunction_try, h, arg_in, handler_call, MEX_ASSERT, mxIsChar,
        mxArrayToString, hl, bind, Except.bind, pure, Except.pure, throw,
        throwThe, MonadExceptOf.throw]
    simp [mexFunction, hlen _ rest h, ht]
  · intro cmd rest idx what h hl hs
    have ht : mexFunction_try ext objs nlhs prhs = .error (.std what) := by
      rw [← hs]
      simp [mexFunction_try, h, arg_in, handler_call, MEX_ASSERT, mxIsChar,
        mxArrayToString, hl, bind, Except.bind, pure, Except.pure]
    simp [mexFunction, hlen _ rest h, ht]
  · intro cmd rest idx h hl hs
    have ht : mexFunction_try ext objs nlhs prhs = .error .other := by
      rw [← hs]
      simp [mexFunction_try, h, arg_in, handler_call, MEX_ASSERT, mxIsChar,
        mxArrayToString, hl, bind, Except.bind, pure, Except.pure]
    simp [mexFunction, hlen _ rest h, ht]

/-- Witness of C13: with no command that is not among the thirteen written
out, the name "nosuchcommand" is not in the map, and the text of the
`std::out_of_range` is what the host is told. -/
theorem mexFunction_reports_failures_witness :
    mexFunction
        ({ m_pi := 3,
           build_G1 := fun _ _ _ _ _ _ _ _ _ _ => .error ⟨"no solver"⟩,
           build_forward := fun _ _ _ _ _ _ _ _ _ => .error ⟨"no solver"⟩,
           origin_at := fun cd _ => cd,
           Pinfinity := fun _ _ => (0, 0),
           closestPointBySample := fun _ _ _ _ => ⟨0, 0, 0, 0⟩,
           bbTriangles := fun _ _ tvec _ _ => tvec,
           stream_real := fun _ => "",
           out_of_range_what := "map::at",
           CMD_MAP_LIST := [],
           CMD_CASE_LIST := fun _ _ _ _ => .error .other } : External ℚ)
        [] 0 [.chars "nosuchcommand"]
      = .errMsgTxt "map::at" :=
  (mexFunction_reports_failures _ [] 0 [.chars "nosuchcommand"]).2.2.2.2.2.1
    "nosuchcommand" [] rfl (by decide)

/-- C14: in the 'build_forward' command, called with one output and eight
inputs on a valid object with six scalars, a forward solve that returns is
delivered as the logical output it returned (so a returned `false` is the
output `false`, not an error); a number of outputs other than 1, or a number of
inputs other than 8, is delivered as an error, not as an output. -/
theorem build_forward_binding_outcomes [Field K] (solver : ForwardSolver K)
    (c : ClothoidCurve K) (x0 y0 theta0 kappa0 x1 y1 : K)
    (objs : List (ClothoidCurve K)) (id : Nat) (cmd : mxArray K)
    (hid : objs[id]? = some c) :
    (∀ r, solver c.CD x0 y0 theta0 kappa0 x1 y1 build_forward_tol c.L = .ok r →
      do_build_forward solver objs 1
          [cmd, .objptr id, .double x0, .double y0, .double theta0,
            .double kappa0, .double x1, .double y1]
        = .ok (objs.set id { CD := r.CD, L := r.L }, [.logical r.ok])) ∧
    (∀ r, solver c.CD x0 y0 theta0 kappa0 x1 y1 build_forward_tol c.L = .ok r →
      r.ok = false →
      do_build_forward solver objs 1
          [cmd, .objptr id, .double x0, .double y0, .double theta0,
            .double kappa0, .double x1, .double y1]
        = .ok (objs.set id { CD := r.CD, L := r.L }, [.logical false])) ∧
    (∀ (nlhs : Nat) (prhs : List (mxArray K)), nlhs ≠ 1 ∨ prhs.length ≠ 8 →
      ∃ msg, do_build_forward solver objs nlhs prhs = .error msg) := by
  have key : ∀ r,
      solver c.CD x0 y0 theta0 kappa0 x1 y1 build_forward_tol c.L = .ok r →
      do_build_forward solver objs 1
          [cmd, .objptr id, .double x0, .double y0, .double theta0,
            .double kappa0, .double x1, .double y1]
        = .ok (objs.set id { CD := r.CD, L := r.L }, [.logical r.ok]) := by
    intro r h
    simp [do_build_forward, MEX_ASSERT, arg_in, DATA_GET, getScalarValue, hid,
      setScalarBool, core_call, ClothoidCurve.build_forward, h, bind,
      Except.bind, pure, Except.pure]
  refine ⟨key, ?_, ?_⟩
  · intro r h hok
    rw [key r h, hok]
  · intro nlhs prhs h
    by_cases h1 : nlhs = 1
    · have h8 : prhs.length ≠ 8 := by
        rcases h with h | h
        · exact absurd h1 h
        · exact h
      refine ⟨"ClothoidCurveMexWrapper('build_forward',OBJ,x0,y0,theta0,kappa0,x1,y1): "
        ++ "expected 8 inputs, nrhs = " ++ toString prhs.length, ?_⟩
      simp [do_build_forward, MEX_ASSERT, h1, h8, bind, Except.bind, throw,
        throwThe, MonadExceptOf.throw, pure, Except.pure]
    · refine ⟨"ClothoidCurveMexWrapper('build_forward',OBJ,x0,y0,theta0,kappa0,x1,y1): "
        ++ "expected 1 output, nlhs = " ++ toString nlhs, ?_⟩
      simp [do_build_forward, MEX_ASSERT, h1, bind, Except.bind, throw,
        throwThe, MonadExceptOf.throw]

/-- Witness of C14: the forward solve returns `false` and leaves
`(0,0,0,0,0,1)`; the command returns the logical `false`. -/
theorem build_forward_binding_outcomes_witness :
    [ClothoidCurve.mk6 (7 : ℚ) 7 7 7 7 7][0]?
      = some (ClothoidCurve.mk6 (7 : ℚ) 7 7 7 7 7) ∧
    do_build_forward
        (fun _ _ _ _ _ _ _ _ _ => .ok ⟨false, ⟨0, 0, 0, 0, 0⟩, 1⟩)
        [ClothoidCurve.mk6 (7 : ℚ) 7 7 7 7 7] 1
        [.chars "build_forward", .objptr 0, .double 0, .double 0, .double 0,
          .double 0, .double 1, .double 0]
      = .ok ([ClothoidCurve.mk6 0 0 0 0 0 1], [.logical false]) :=
  ⟨rfl,
    (build_forward_binding_outcomes
      (fun _ _ _ _ _ _ _ _ _ => .ok ⟨false, ⟨0, 0, 0, 0, 0⟩, 1⟩)
      (ClothoidCurve.mk6 (7 : ℚ) 7 7 7 7 7) 0 0 0 0 1 0
      [ClothoidCurve.mk6 (7 : ℚ) 7 7 7 7 7] 0 (.chars "build_forward") rfl).1
        ⟨false, ⟨0, 0, 0, 0, 0⟩, 1⟩ rfl⟩

/-- C15, the code at the failing input: the 'build' command called with three
inputs (command, OBJ, parameter structure with the six scalar fields) and no
output is rejected, with the text that names 3 as an expected count; and called
with two inputs (command, OBJ) it takes the structure branch and fails there,
because the handle is not a structure. -/
theorem do_build_rejects_three_inputs :
    do_build [(ClothoidCurve.default : ClothoidCurve ℚ)] 0
        [.chars "build", .objptr 0,
          .struct [("x0", .double 1), ("y0", .double 2), ("theta0", .double 3),
            ("k0", .double 4), ("dk", .double 5), ("L", .double 6)]]
      = .error "ClothoidCurveMexWrapper('build',OBJ,...):  expected 3, or 8 inputs, nrhs = 3" ∧
    do_build [(ClothoidCurve.default : ClothoidCurve ℚ)] 0
        [.chars "build", .objptr 0]
      = .error "ClothoidCurveMexWrapper('build',OBJ,struct): Argument n.3 must be a struct" ∧
    do_build [(ClothoidCurve.default : ClothoidCurve ℚ)] 0
        [.chars "build", .objptr 0, .double 1, .double 2, .double 3, .double 4,
          .double 5, .double 6]
      = .ok ([ClothoidCurve.mk6 1 2 3 4 5 6], []) := by
  have h3 : "ClothoidCurveMexWrapper('build',OBJ,...):" ++
      "  expected 3, or 8 inputs, nrhs = " ++ toString 3
      = "ClothoidCurveMexWrapper('build',OBJ,...):  expected 3, or 8 inputs, nrhs = 3" := by
    decide
  have h2 : "ClothoidCurveMexWrapper('build',OBJ,struct): " ++
      "Argument n.3 must be a struct"
      = "ClothoidCurveMexWrapper('build',OBJ,struct): Argument n.3 must be a struct" := by
    decide
  refine ⟨?_, ?_, rfl⟩
  · rw [← h3]
    rfl
  · rw [← h2]
    rfl

/-- A call on the object that `DATA_NEW` has just put at the end of the
table rewrites that last place. -/
theorem Store.update_new (objs : List (ClothoidCurve K)) (d : ClothoidCurve K)
    (f : ClothoidCurve K → ClothoidCurve K) :
    Store.update (objs ++ [d]) objs.length f = objs ++ [f d] := by
  simp [Store.update]

/-- C16: the 'new' command raises an error unless exactly one output is
requested, and raises an error for every number of inputs other than 1, 2 and
7; with one input the created curve is the default curve, and with seven
inputs, six of them scalars, its parameters `(x0,y0,theta0,k0,dk,L)` are the
six scalars in that order.  The new object takes the next place of the table
and its handle is the output. -/
theorem do_new_counts [Field K] (objs : List (ClothoidCurve K)) (nlhs : Nat)
    (prhs : List (mxArray K)) (cmd : mxArray K) (x0 y0 theta0 k0 dk L : K) :
    (nlhs ≠ 1 → ∃ msg, do_new objs nlhs prhs = .error msg) ∧
    (prhs.length ≠ 1 → prhs.length ≠ 2 → prhs.length ≠ 7 →
      ∃ msg, do_new objs nlhs prhs = .error msg) ∧
    do_new objs 1 [cmd]
      = .ok (objs ++ [ClothoidCurve.default], [.objptr objs.length]) ∧
    do_new objs 1
        [cmd, .double x0, .double y0, .double theta0, .double k0, .double dk,
          .double L]
      = .ok (objs ++ [ClothoidCurve.mk6 x0 y0 theta0 k0 dk L],
          [.objptr objs.length]) := by
  have hout : nlhs ≠ 1 → ∃ msg, do_new objs nlhs prhs = .error msg := by
    intro h
    refine ⟨"ClothoidCurveMexWrapper, expected 1 output, nlhs = " ++ toString nlhs, ?_⟩
    simp [do_new, MEX_ASSERT, h, bind, Except.bind, throw, throwThe,
      MonadExceptOf.throw]
  refine ⟨hout, ?_, ?_, ?_⟩
  · intro h1 h2 h7
    by_cases h : nlhs = 1
    · refine ⟨"ClothoidCurveMexWrapper('new',...):" ++
        "  expected 1, 2, or 7 inputs, nrhs = " ++ toString prhs.length, ?_⟩
      simp [do_new, MEX_ASSERT, DATA_NEW, h, h1, h2, h7, bind, Except.bind,
        throw, throwThe, MonadExceptOf.throw, pure, Except.pure]
    · exact hout h
  · simp [do_new, MEX_ASSERT, DATA_NEW, bind, Except.bind, pure, Except.pure]
  · simp [do_new, MEX_ASSERT, DATA_NEW, arg_in, getScalarValue, Store.update_new,
      ClothoidCurve.build, ClothoidCurve.default, ClothoidCurve.mk6, bind,
      Except.bind, pure, Except.pure]

/-- C17, as stated, fails for 'distanceBySample' with no output requested:
the step `ds = -1` is accepted, and so are `x` of size `1 x 2` with `y` of size
`2 x 1`; the command returns normally with no output. -/
theorem distanceBySample_without_output_checks_nothing :
    do_distance_by_sample (fun _ => "") (fun _ _ _ _ => ⟨0, 0, 0, 0⟩)
        [(ClothoidCurve.default : ClothoidCurve ℚ)] 0
        [.chars "distanceBySample", .objptr 0, .matrix 1 2 [0, 1],
          .matrix 1 2 [0, 1], .double (-1)]
      = .ok ([ClothoidCurve.default], []) ∧
    do_distance_by_sample (fun _ => "") (fun _ _ _ _ => ⟨0, 0, 0, 0⟩)
        [(ClothoidCurve.default : ClothoidCurve ℚ)] 0
        [.chars "distanceBySample", .objptr 0, .matrix 1 2 [0, 1],
          .matrix 2 1 [0, 1], .double 1]
      = .ok ([ClothoidCurve.default], []) :=
  ⟨rfl, rfl⟩

/-- C17, amended.  Called with five inputs on a valid object, with real arrays
`x` and `y` and a real scalar `ds`: 'closestPointBySample' with four outputs,
and 'distanceBySample' with one or two outputs, reject `x` and `y` of different
sizes, and for equal sizes reject `ds <= 0` with the error "... must be a
positive number"; the failure is the same whatever the sampling routine is, so
no sample is taken.  'distanceBySample' with no output requested checks
neither and returns normally, with no output.  'closestPointBySample' with a
number of outputs other than 4, and 'distanceBySample' with more than two,
fail. -/
theorem sampling_commands_checks [LinearOrderedField K]
    (stream_real : K → String) (sample : ClosestBySample K)
    (c : ClothoidCurve K) (objs : List (ClothoidCurve K)) (id : Nat)
    (cmd a2 a3 a4 : mxArray K) (nrx ncx nry ncy : Nat) (x y : List K) (ds : K)
    (hid : objs[id]? = some c) :
    ((nrx ≠ nry ∨ ncx ≠ ncy) →
      do_closest_by_sample stream_real sample objs 4
          [cmd, .objptr id, .matrix nrx ncx x, .matrix nry ncy y, .double ds]
        = .error (same_size_text
            "ClothoidCurveMexWrapper('closestPointBySample',OBJ,x,y,ds): "
            nrx nry ncy) ∧
      ∀ nlhs, nlhs = 1 ∨ nlhs = 2 →
        do_distance_by_sample stream_real sample objs nlhs
            [cmd, .objptr id, .matrix nrx ncx x, .matrix nry ncy y, .double ds]
          = .error (same_size_text
              "ClothoidCurveMexWrapper('distanceBySample',OBJ,x,y,ds): "
              nrx nry ncy)) ∧
    (ds ≤ 0 →
      do_closest_by_sample stream_real sample objs 4
          [cmd, .objptr id, .matrix nrx ncx x, .matrix nrx ncx y, .double ds]
        = .error (positive_ds_text stream_real
            "ClothoidCurveMexWrapper('closestPointBySample',OBJ,x,y,ds): " ds) ∧
      ∀ nlhs, nlhs = 1 ∨ nlhs = 2 →
        do_distance_by_sample stream_real sample objs nlhs
            [cmd, .objptr id, .matrix nrx ncx x, .matrix nrx ncx y, .double ds]
          = .error (positive_ds_text stream_real
              "ClothoidCurveMexWrapper('distanceBySample',OBJ,x,y,ds): " ds)) ∧
    do_distance_by_sample stream_real sample objs 0 [cmd, .objptr id, a2, a3, a4]
      = .ok (objs, []) ∧
    (∀ (nlhs : Nat) (prhs : List (mxArray K)), nlhs ≠ 4 →
      ∃ msg, do_closest_by_sample stream_real sample objs nlhs prhs = .error msg) ∧
    (∀ (nlhs : Nat) (prhs : List (mxArray K)), 2 < nlhs →
      ∃ msg, do_distance_by_sample stream_real sample objs nlhs prhs = .error msg) := by
  refine ⟨?_, ?_, ?_, ?_, ?_⟩
  · intro hsz
    have hb : (nrx == nry && ncx == ncy) = false := by
      rcases hsz with h | h <;> simp [h]
    constructor
    · simp [do_closest_by_sample, MEX_ASSERT, arg_in, DATA_GET, getMatrixPointer,
        hid, hb, bind, Except.bind, pure, Except.pure, throw, throwThe,
        MonadExceptOf.throw]
    · intro nlhs hn
      have h0 : 0 < nlhs := by omega
      have h2 : nlhs ≤ 2 := by omega
      simp [do_distance_by_sample, MEX_ASSERT, arg_in, DATA_GET,
        getMatrixPointer, hid, hb, h0, h2, bind, Except.bind, pure,
        Except.pure, throw, throwThe, MonadExceptOf.throw]
  · intro hds
    have hd : ¬ (0 < ds) := not_lt.mpr hds
    constructor
    · simp [do_closest_by_sample, MEX_ASSERT, arg_in, DATA_GET, getMatrixPointer,
        getScalarValue, hid, hd, bind, Except.bind, pure, Except.pure, throw,
        throwThe, MonadExceptOf.throw]
    · intro nlhs hn
      have h0 : 0 < nlhs := by omega
      have h2 : nlhs ≤ 2 := by omega
      simp [do_distance_by_sample, MEX_ASSERT, arg_in, DATA_GET,
        getMatrixPointer, getScalarValue, hid, hd, h0, h2, bind, Except.bind,
        pure, Except.pure, throw, throwThe, MonadExceptOf.throw]
  · simp [do_distance_by_sample, MEX_ASSERT, arg_in, DATA_GET, hid, bind,
      Except.bind, pure, Except.pure]
  · intro nlhs prhs hn
    by_cases h5 : prhs.length = 5
    · refine ⟨"ClothoidCurveMexWrapper('closestPointBySample',OBJ,x,y,ds): "
        ++ "expected 4 outputs, nlhs = " ++ toString nlhs, ?_⟩
      simp [do_closest_by_sample, MEX_ASSERT, h5, hn, bind, Except.bind, pure,
        Except.pure, throw, throwThe, MonadExceptOf.throw]
    · refine ⟨"ClothoidCurveMexWrapper('closestPointBySample',OBJ,x,y,ds): "
        ++ "expected 5 input, nrhs = " ++ toString prhs.length, ?_⟩
      simp [do_closest_by_sample, MEX_ASSERT, h5, bind, Except.bind, throw,
        throwThe, MonadExceptOf.throw]
  · intro nlhs prhs hn
    by_cases h5 : prhs.length = 5
    · have h0 : 0 < nlhs := by omega
      have h2 : ¬ nlhs ≤ 2 := by omega
      rcases prhs with _ | ⟨p0, _ | ⟨p1, _ | ⟨p2, _ | ⟨p3, _ | ⟨p4, _ | ⟨p5, rest⟩⟩⟩⟩⟩⟩
        <;> simp at h5
      cases hg : DATA_GET objs p1 with
      | error e =>
        refine ⟨e, ?_⟩
        simp [do_distance_by_sample, MEX_ASSERT, arg_in, hg, bind,
          Except.bind, pure, Except.pure]
      | ok v =>
        refine ⟨"ClothoidCurveMexWrapper('distanceBySample',OBJ,x,y,ds): "
          ++ "expected 1 or 2 output, nlhs = " ++ toString nlhs, ?_⟩
        simp [do_distance_by_sample, MEX_ASSERT, arg_in, hg, h0, h2,
          bind, Except.bind, pure, Except.pure, throw, throwThe,
          MonadExceptOf.throw]
    · refine ⟨"ClothoidCurveMexWrapper('distanceBySample',OBJ,x,y,ds): "
        ++ "expected 5 input, nrhs = " ++ toString prhs.length, ?_⟩
      simp [do_distance_by_sample, MEX_ASSERT, h5, bind, Except.bind, throw,
        throwThe, MonadExceptOf.throw]

/-- Witness of C17 (amended): 'closestPointBySample' with four outputs on the
default curve, `x` and `y` of size `1 x 2`, and `ds = -1`. -/
theorem sampling_commands_checks_witness :
    [(ClothoidCurve.default : ClothoidCurve ℚ)][0]? = some ClothoidCurve.default ∧
    (-1 : ℚ) ≤ 0 ∧
    do_closest_by_sample (fun _ => "-1") (fun _ _ _ _ => ⟨0, 0, 0, 0⟩)
        [(ClothoidCurve.default : ClothoidCurve ℚ)] 4
        [.chars "closestPointBySample", .objptr 0, .matrix 1 2 [0, 1],
          .matrix 1 2 [0, 1], .double (-1)]
      = .error (positive_ds_text (fun _ => "-1")
          "ClothoidCurveMexWrapper('closestPointBySample',OBJ,x,y,ds): " (-1 : ℚ)) :=
  ⟨rfl, by norm_num,
    ((sampling_commands_checks (fun _ => "-1") (fun _ _ _ _ => ⟨0, 0, 0, 0⟩)
      (ClothoidCurve.default : ClothoidCurve ℚ) [ClothoidCurve.default] 0
      (.chars "closestPointBySample") (.double 0) (.double 0) (.double 0)
      1 2 1 2 [0, 1] [0, 1] (-1) rfl).2.1 (by norm_num)).1⟩

/-- C18: curves are copied by value.  For two different objects `i` (the
receiver) and `j` (the curve `c`) of a store: after `copy(c)`, and equally
after `operator =`, the receiver holds the six parameters of `c`, and `c` is
unchanged; the copy constructor yields `c`; and after a later mutating call
`f` on the receiver, among them `translate` and `scale`, `c` is still
unchanged. -/
theorem copy_by_value [Field K] (st : List (ClothoidCurve K)) (i j : Nat)
    (r c : ClothoidCurve K) (f : ClothoidCurve K → ClothoidCurve K)
    (tx ty s : K)
    (hi : st[i]? = some r) (hj : st[j]? = some c) (hij : i ≠ j) :
    (Store.readFrom st i j ClothoidCurve.copy)[i]? = some c ∧
    (Store.readFrom st i j ClothoidCurve.copy)[j]? = some c ∧
    Store.readFrom st i j ClothoidCurve.assign
      = Store.readFrom st i j ClothoidCurve.copy ∧
    ClothoidCurve.copyCtor r c = c ∧
    (Store.update (Store.readFrom st i j ClothoidCurve.copy) i f)[i]? = some (f c) ∧
    (Store.update (Store.readFrom st i j ClothoidCurve.copy) i f)[j]? = some c ∧
    (Store.update (Store.readFrom st i j ClothoidCurve.copy) i
      (fun o => o.translate tx ty))[j]? = some c ∧
    (Store.update (Store.readFrom st i j ClothoidCurve.copy) i
      (fun o => o.scale s))[j]? = some c := by
  have hlt : i < st.length := by
    rcases Nat.lt_or_ge i st.length with h | h
    · exact h
    · rw [List.getElem?_eq_none h] at hi
      cases hi
  have hcopy : Store.readFrom st i j ClothoidCurve.copy = st.set i c := by
    simp [Store.readFrom, hi, hj, ClothoidCurve.copy]
  have hget : (st.set i c)[i]? = some c := by
    simp [List.getElem?_set, hlt]
  have hupd : ∀ g : ClothoidCurve K → ClothoidCurve K,
      Store.update (st.set i c) i g = st.set i (g c) := by
    intro g
    simp [Store.update, hget, List.set_set]
  have hother : ∀ d : ClothoidCurve K, (st.set i d)[j]? = some c := by
    intro d
    rw [List.getElem?_set_ne hij]
    exact hj
  refine ⟨?_, ?_, ?_, rfl, ?_, ?_, ?_, ?_⟩
  · rw [hcopy]
    exact hget
  · rw [hcopy]
    exact hother c
  · rfl
  · rw [hcopy, hupd]
    simp [List.getElem?_set, hlt]
  · rw [hcopy, hupd]
    exact hother _
  · rw [hcopy, hupd]
    exact hother _
  · rw [hcopy, hupd]
    exact hother _

/-- Witness of C18: a store of two curves, the first one copied from the
second and then translated. -/
theorem copy_by_value_witness :
    [ClothoidCurve.mk6 (1 : ℚ) 1 1 1 1 1, ClothoidCurve.mk6 2 2 2 2 2 2][0]?
      = some (ClothoidCurve.mk6 1 1 1 1 1 1) ∧
    [ClothoidCurve.mk6 (1 : ℚ) 1 1 1 1 1, ClothoidCurve.mk6 2 2 2 2 2 2][1]?
      = some (ClothoidCurve.mk6 2 2 2 2 2 2) ∧
    (0 : Nat) ≠ 1 ∧
    (Store.update
      (Store.readFrom
        [ClothoidCurve.mk6 (1 : ℚ) 1 1 1 1 1, ClothoidCurve.mk6 2 2 2 2 2 2]
        0 1 ClothoidCurve.copy)
      0 (fun o => o.translate 5 7))[1]? = some (ClothoidCurve.mk6 2 2 2 2 2 2) :=
  ⟨rfl, rfl, by decide,
    (copy_by_value
      [ClothoidCurve.mk6 (1 : ℚ) 1 1 1 1 1, ClothoidCurve.mk6 2 2 2 2 2 2] 0 1
      (ClothoidCurve.mk6 1 1 1 1 1 1) (ClothoidCurve.mk6 2 2 2 2 2 2) id 5 7 3
      rfl rfl (by decide)).2.2.2.2.2.2.1⟩

/-- C19: intersecting with a line segment or a circle arc is intersecting with
its clothoid form (`kappa0 = 0`, `dk = 0` for the segment; `kappa0 = k`,
`dk = 0` for the arc), for every curve, all offsets, `max_iter` and
`tolerance`; and every overload without offsets is the offset overload called
with both offsets `0`. -/
theorem intersect_overloads [Field K] (impl : IntersectImpl K)
    (self c : ClothoidCurve K) (LS : LineSegment K) (C : CircleArc K)
    (offs c_offs : K) (s1 s2 : List K) (max_iter : Int) (tolerance : K) :
    self.intersect_offs_LineSegment impl offs LS c_offs s1 s2 max_iter tolerance
      = impl self offs (ClothoidCurve.mk6 LS.x0 LS.y0 LS.theta0 0 0 LS.L) c_offs
          s1 s2 max_iter tolerance ∧
    self.intersect_offs_LineSegment impl offs LS c_offs s1 s2 max_iter tolerance
      = impl self offs (ClothoidCurve.ofLineSegment LS) c_offs s1 s2 max_iter
          tolerance ∧
    self.intersect_offs_CircleArc impl offs C c_offs s1 s2 max_iter tolerance
      = impl self offs (ClothoidCurve.mk6 C.x0 C.y0 C.theta0 C.k 0 C.L) c_offs
          s1 s2 max_iter tolerance ∧
    self.intersect_offs_CircleArc impl offs C c_offs s1 s2 max_iter tolerance
      = impl self offs (ClothoidCurve.ofCircleArc C) c_offs s1 s2 max_iter
          tolerance ∧
    self.intersect impl c s1 s2 max_iter tolerance
      = impl self 0 c 0 s1 s2 max_iter tolerance ∧
    self.intersect_LineSegment impl LS s1 s2 max_iter tolerance
      = self.intersect_offs_LineSegment impl 0 LS 0 s1 s2 max_iter tolerance ∧
    self.intersect_CircleArc impl C s1 s2 max_iter tolerance
      = self.intersect_offs_CircleArc impl 0 C 0 s1 s2 max_iter tolerance :=
  ⟨rfl, rfl, rfl, rfl, rfl, rfl, rfl⟩

/-- C20: `changeOrigin(newx0,newy0)` sets the start point to
`(newx0,newy0)` and leaves `theta0`, `kappa0`, `dk` and `L` unchanged; for
every curve it has the effect of `translate(newx0 - x0, newy0 - y0)`. -/
theorem changeOrigin_is_translate [Field K] (c : ClothoidCurve K)
    (newx0 newy0 : K) :
    (c.changeOrigin newx0 newy0).CD.x0 = newx0 ∧
    (c.changeOrigin newx0 newy0).CD.y0 = newy0 ∧
    (c.changeOrigin newx0 newy0).CD.theta0 = c.CD.theta0 ∧
    (c.changeOrigin newx0 newy0).CD.kappa0 = c.CD.kappa0 ∧
    (c.changeOrigin newx0 newy0).CD.dk = c.CD.dk ∧
    (c.changeOrigin newx0 newy0).L = c.L ∧
    c.changeOrigin newx0 newy0
      = c.translate (newx0 - c.CD.x0) (newy0 - c.CD.y0) := by
  refine ⟨rfl, rfl, rfl, rfl, rfl, rfl, ?_⟩
  simp [ClothoidCurve.changeOrigin, ClothoidCurve.translate]

/-- The first branch of `projectPointOnCircle` in terms of the local `tmp`. -/
theorem projectPointOnCircle_first [LinearOrderedField K] (Atanc : K → K)
    (atan2 : K → K → K) (m_pi m_2pi x0 y0 c0 s0 k L qx qy : K)
    (h : 1 + 2 * (projectPointOnCircle_a0 x0 y0 c0 s0 qx qy * k) > 0) :
    projectPointOnCircle Atanc atan2 m_pi m_2pi x0 y0 c0 s0 k L qx qy
      = if projectPointOnCircle_raw Atanc x0 y0 c0 s0 k qx qy < 0 then
          if m_2pi ≤ |k| * (L - projectPointOnCircle_raw Atanc x0 y0 c0 s0 k qx qy)
          then projectPointOnCircle_raw Atanc x0 y0 c0 s0 k qx qy + m_2pi / |k|
          else projectPointOnCircle_raw Atanc x0 y0 c0 s0 k qx qy
        else projectPointOnCircle_raw Atanc x0 y0 c0 s0 k qx qy := by
  simp only [projectPointOnCircle_a0] at h
  simp only [projectPointOnCircle, projectPointOnCircle_raw,
    projectPointOnCircle_a0, projectPointOnCircle_b0, h, if_true]

/-- The second branch of `projectPointOnCircle` in terms of the local `ss`. -/
theorem projectPointOnCircle_second [LinearOrderedField K] (Atanc : K → K)
    (atan2 : K → K → K) (m_pi m_2pi x0 y0 c0 s0 k L qx qy : K)
    (h : ¬ 1 + 2 * (projectPointOnCircle_a0 x0 y0 c0 s0 qx qy * k) > 0) :
    projectPointOnCircle Atanc atan2 m_pi m_2pi x0 y0 c0 s0 k L qx qy
      = if projectPointOnCircle_ss atan2 m_pi x0 y0 c0 s0 k qx qy < 0 then
          projectPointOnCircle_ss atan2 m_pi x0 y0 c0 s0 k qx qy + m_2pi / |k|
        else if projectPointOnCircle_ss atan2 m_pi x0 y0 c0 s0 k qx qy
            > m_2pi / |k| then
          projectPointOnCircle_ss atan2 m_pi x0 y0 c0 s0 k qx qy + m_2pi / |k|
        else projectPointOnCircle_ss atan2 m_pi x0 y0 c0 s0 k qx qy := by
  simp only [projectPointOnCircle_a0] at h
  simp only [projectPointOnCircle, projectPointOnCircle_ss,
    projectPointOnCircle_a0, projectPointOnCircle_b0, h, if_false]

/-- C21: each `Triangle2D` overload of `bbTriangle` returns the boolean of the
six-coordinate overload for the same curve (and offset); when that boolean is
false the triangle `t` of the caller is left as it was, and when it is true `t`
is the result of `t.build` on exactly the six coordinates the coordinate
overload returns. -/
theorem bbTriangle_Triangle2D_overloads (CD_bbTriangle : CDbbTriangle K)
    (CD_bbTriangle_offs : CDbbTriangleOffs K) (T_build : Triangle2Dbuild K)
    (c : ClothoidCurve K) (offs : K) (t : Triangle2D K) :
    (c.bbTriangle_T CD_bbTriangle T_build t).1 = (c.bbTriangle CD_bbTriangle).1 ∧
    (c.bbTriangle_offs_T CD_bbTriangle_offs T_build offs t).1
      = (c.bbTriangle_offs CD_bbTriangle_offs offs).1 ∧
    ((c.bbTriangle CD_bbTriangle).1 = false →
      (c.bbTriangle_T CD_bbTriangle T_build t).2 = t) ∧
    ((c.bbTriangle_offs CD_bbTriangle_offs offs).1 = false →
      (c.bbTriangle_offs_T CD_bbTriangle_offs T_build offs t).2 = t) ∧
    ((c.bbTriangle CD_bbTriangle).1 = true →
      (c.bbTriangle_T CD_bbTriangle T_build t).2
        = T_build t (c.bbTriangle CD_bbTriangle).2.x0
            (c.bbTriangle CD_bbTriangle).2.y0 (c.bbTriangle CD_bbTriangle).2.x1
            (c.bbTriangle CD_bbTriangle).2.y1 (c.bbTriangle CD_bbTriangle).2.x2
            (c.bbTriangle CD_bbTriangle).2.y2) ∧
    ((c.bbTriangle_offs CD_bbTriangle_offs offs).1 = true →
      (c.bbTriangle_offs_T CD_bbTriangle_offs T_build offs t).2
        = T_build t (c.bbTriangle_offs CD_bbTriangle_offs offs).2.x0
            (c.bbTriangle_offs CD_bbTriangle_offs offs).2.y0
            (c.bbTriangle_offs CD_bbTriangle_offs offs).2.x1
            (c.bbTriangle_offs CD_bbTriangle_offs offs).2.y1
            (c.bbTriangle_offs CD_bbTriangle_offs offs).2.x2
            (c.bbTriangle_offs CD_bbTriangle_offs offs).2.y2) := by
  refine ⟨rfl, rfl, ?_, ?_, ?_, ?_⟩
  · intro h
    simp only [ClothoidCurve.bbTriangle] at h
    simp [ClothoidCurve.bbTriangle_T, h]
  · intro h
    simp only [ClothoidCurve.bbTriangle_offs] at h
    simp [ClothoidCurve.bbTriangle_offs_T, h]
  · intro h
    simp only [ClothoidCurve.bbTriangle] at h
    simp [ClothoidCurve.bbTriangle_T, ClothoidCurve.bbTriangle, h]
  · intro h
    simp only [ClothoidCurve.bbTriangle_offs] at h
    simp [ClothoidCurve.bbTriangle_offs_T, ClothoidCurve.bbTriangle_offs, h]

/-- C23: `trim(s_begin,s_end)` yields exactly the curve that
`changeCurvilinearOrigin(s_begin, s_end - s_begin)` yields, and
`changeCurvilinearOrigin(s0,newL)` sets the length to `newL` whatever the
previous length was. -/
theorem trim_is_changeCurvilinearOrigin [Field K]
    (origin_at : ClothoidData K → K → ClothoidData K) (c : ClothoidCurve K)
    (s_begin s_end s0 newL : K) :
    c.trim origin_at s_begin s_end
      = c.changeCurvilinearOrigin origin_at s_begin (s_end - s_begin) ∧
    (c.changeCurvilinearOrigin origin_at s0 newL).L = newL ∧
    (∀ L0 : K,
      ({ c with L := L0 } : ClothoidCurve K).changeCurvilinearOrigin origin_at s0 newL
        = c.changeCurvilinearOrigin origin_at s0 newL) :=
  ⟨rfl, rfl, fun _ => rfl⟩

/-- C24: `scale(1)` is the identity on the six parameters; for `a, b ≠ 0`,
`scale(a)` followed by `scale(b)` yields the curve `scale(a*b)` yields; and
`scale(s)` followed by `scale(1/s)` restores the curve, for every `s ≠ 0`. -/
theorem scale_composes [Field K] (c : ClothoidCurve K) (a b s : K)
    (_ha : a ≠ 0) (_hb : b ≠ 0) (hs : s ≠ 0) :
    c.scale 1 = c ∧
    (c.scale a).scale b = c.scale (a * b) ∧
    (c.scale s).scale (1 / s) = c := by
  refine ⟨?_, ?_, ?_⟩
  · simp [ClothoidCurve.scale]
  · simp only [ClothoidCurve.scale, ClothoidCurve.mk.injEq, ClothoidData.mk.injEq,
      true_and]
    refine ⟨⟨?_, ?_⟩, ?_⟩
    · rw [div_div]
    · rw [div_div]
      congr 1
      ring
    · ring
  · have h1 : c.CD.kappa0 / s / (1 / s) = c.CD.kappa0 := by
      field_simp
    have h2 : c.CD.dk / (s * s) / (1 / s * (1 / s)) = c.CD.dk := by
      field_simp
    have h3 : c.L * s * (1 / s) = c.L := by
      field_simp
    simp only [ClothoidCurve.scale, h1, h2, h3]

/-- Witness of C24: the curve `(1,2,3,4,6,5)` scaled by `2` and then by `3`,
and scaled by `4` and then by `1/4`. -/
theorem scale_composes_witness :
    (2 : ℚ) ≠ 0 ∧ (3 : ℚ) ≠ 0 ∧ (4 : ℚ) ≠ 0 ∧
    (ClothoidCurve.mk6 (1 : ℚ) 2 3 4 6 5).scale 1
      = ClothoidCurve.mk6 (1 : ℚ) 2 3 4 6 5 ∧
    ((ClothoidCurve.mk6 (1 : ℚ) 2 3 4 6 5).scale 2).scale 3
      = (ClothoidCurve.mk6 (1 : ℚ) 2 3 4 6 5).scale (2 * 3) ∧
    ((ClothoidCurve.mk6 (1 : ℚ) 2 3 4 6 5).scale 4).scale (1 / 4)
      = ClothoidCurve.mk6 (1 : ℚ) 2 3 4 6 5 :=
  ⟨by norm_num, by norm_num, by norm_num,
    scale_composes (ClothoidCurve.mk6 (1 : ℚ) 2 3 4 6 5) 2 3 4 (by norm_num)
      (by norm_num) (by norm_num)⟩

/-- C25: `projectPointOnLine` returns the tangential coordinate.  For every
base point `(x0,y0)`, every unit direction `(c0,s0)` and every point
`Q = P + s*T + t*N` with `N = (-s0,c0)`, the value is `s`, whatever `t` is. -/
theorem projectPointOnLine_tangential [Field K] (x0 y0 c0 s0 s t : K)
    (hunit : c0 ^ 2 + s0 ^ 2 = 1) :
    projectPointOnLine x0 y0 c0 s0 (x0 + s * c0 + t * -s0) (y0 + s * s0 + t * c0)
      = s := by
  simp only [projectPointOnLine]
  linear_combination s * hunit

/-- Witness of C25: the unit direction `(3/5,4/5)` at the base point `(1,2)`,
with `s = 7` and `t = 11`. -/
theorem projectPointOnLine_tangential_witness :
    (3 / 5 : ℚ) ^ 2 + (4 / 5) ^ 2 = 1 ∧
    projectPointOnLine (1 : ℚ) 2 (3 / 5) (4 / 5)
        (1 + 7 * (3 / 5) + 11 * -(4 / 5)) (2 + 7 * (4 / 5) + 11 * (3 / 5))
      = 7 :=
  ⟨by norm_num,
    projectPointOnLine_tangential (1 : ℚ) 2 (3 / 5) (4 / 5) 7 11 (by norm_num)⟩

/-- C22: in the first branch of `projectPointOnCircle` (`1 + 2*a0*k > 0`)
with `k ≠ 0` and `R = 1/|k|`, a negative raw arclength `tmp` is replaced by
`tmp + 2*pi*R` exactly when `tmp + 2*pi*R ≤ L` and is returned unchanged
otherwise; a result that differs from the raw value does not exceed `L`; and a
raw value that is not negative is returned unchanged. -/
theorem projectPointOnCircle_wrap [LinearOrderedField K] (Atanc : K → K)
    (atan2 : K → K → K) (m_pi m_2pi x0 y0 c0 s0 k L qx qy : K)
    (hbranch : 1 + 2 * (projectPointOnCircle_a0 x0 y0 c0 s0 qx qy * k) > 0)
    (hk : k ≠ 0) :
    (projectPointOnCircle_raw Atanc x0 y0 c0 s0 k qx qy < 0 →
      projectPointOnCircle_raw Atanc x0 y0 c0 s0 k qx qy + m_2pi * (1 / |k|) ≤ L →
      projectPointOnCircle Atanc atan2 m_pi m_2pi x0 y0 c0 s0 k L qx qy
        = projectPointOnCircle_raw Atanc x0 y0 c0 s0 k qx qy + m_2pi * (1 / |k|)) ∧
    (projectPointOnCircle_raw Atanc x0 y0 c0 s0 k qx qy < 0 →
      ¬ projectPointOnCircle_raw Atanc x0 y0 c0 s0 k qx qy + m_2pi * (1 / |k|) ≤ L →
      projectPointOnCircle Atanc atan2 m_pi m_2pi x0 y0 c0 s0 k L qx qy
        = projectPointOnCircle_raw Atanc x0 y0 c0 s0 k qx qy) ∧
    (0 ≤ projectPointOnCircle_raw Atanc x0 y0 c0 s0 k qx qy →
      projectPointOnCircle Atanc atan2 m_pi m_2pi x0 y0 c0 s0 k L qx qy
        = projectPointOnCircle_raw Atanc x0 y0 c0 s0 k qx qy) ∧
    (projectPointOnCircle Atanc atan2 m_pi m_2pi x0 y0 c0 s0 k L qx qy
        ≠ projectPointOnCircle_raw Atanc x0 y0 c0 s0 k qx qy →
      projectPointOnCircle Atanc atan2 m_pi m_2pi x0 y0 c0 s0 k L qx qy ≤ L) := by
  have hab : 0 < |k| := abs_pos.mpr hk
  have hR : m_2pi * (1 / |k|) = m_2pi / |k| := by
    rw [mul_one_div]
  have hiff : ∀ r : K, m_2pi ≤ |k| * (L - r) ↔ r + m_2pi / |k| ≤ L := by
    intro r
    rw [← le_sub_iff_add_le', div_le_iff₀ hab, mul_comm]
  rw [projectPointOnCircle_first Atanc atan2 m_pi m_2pi x0 y0 c0 s0 k L qx qy hbranch,
    hR]
  refine ⟨?_, ?_, ?_, ?_⟩
  · intro hneg hle
    rw [if_pos hneg, if_pos ((hiff _).mpr hle)]
  · intro hneg hle
    rw [if_pos hneg, if_neg (fun h => hle ((hiff _).mp h))]
  · intro hpos
    rw [if_neg (not_lt.mpr hpos)]
  · intro hne
    by_cases hneg : projectPointOnCircle_raw Atanc x0 y0 c0 s0 k qx qy < 0
    · by_cases hc : m_2pi
          ≤ |k| * (L - projectPointOnCircle_raw Atanc x0 y0 c0 s0 k qx qy)
      · rw [if_pos hneg, if_pos hc]
        exact (hiff _).mp hc
      · rw [if_pos hneg, if_neg hc] at hne
        exact absurd rfl hne
    · rw [if_neg hneg] at hne
      exact absurd rfl hne

/-- Witness of C22: base point `(0,0)`, direction `(1,0)`, `k = 1`, `L = 7`,
the point `(-1,0)`, with `Atanc` taken as the constant `1` and `m_2pi = 6`: the
raw value `-1` is wrapped to `5`. -/
theorem projectPointOnCircle_wrap_witness :
    1 + 2 * (projectPointOnCircle_a0 (0 : ℚ) 0 1 0 (-1) 0 * 1) > 0 ∧
    (1 : ℚ) ≠ 0 ∧
    projectPointOnCircle_raw (fun _ => (1 : ℚ)) 0 0 1 0 1 (-1) 0 < 0 ∧
    projectPointOnCircle_raw (fun _ => (1 : ℚ)) 0 0 1 0 1 (-1) 0 + 6 * (1 / |1|) ≤ 7 ∧
    projectPointOnCircle (fun _ => (1 : ℚ)) (fun _ _ => 0) 3 6 0 0 1 0 1 7 (-1) 0
      = projectPointOnCircle_raw (fun _ => (1 : ℚ)) 0 0 1 0 1 (-1) 0 + 6 * (1 / |1|) :=
  have hb : 1 + 2 * (projectPointOnCircle_a0 (0 : ℚ) 0 1 0 (-1) 0 * 1) > 0 := by
    norm_num [projectPointOnCircle_a0]
  have hneg : projectPointOnCircle_raw (fun _ => (1 : ℚ)) 0 0 1 0 1 (-1) 0 < 0 := by
    norm_num [projectPointOnCircle_raw, projectPointOnCircle_a0,
      projectPointOnCircle_b0]
  have hle : projectPointOnCircle_raw (fun _ => (1 : ℚ)) 0 0 1 0 1 (-1) 0
      + 6 * (1 / |1|) ≤ 7 := by
    norm_num [projectPointOnCircle_raw, projectPointOnCircle_a0,
      projectPointOnCircle_b0]
  ⟨hb, by norm_num, hneg, hle,
    (projectPointOnCircle_wrap (fun _ => (1 : ℚ)) (fun _ _ => 0) 3 6 0 0 1 0 1 7
      (-1) 0 hb (by norm_num)).1 hneg hle⟩

/-- C26: with `m_2pi > 0`, every division of `projectPointOnCircle` has a
divisor that is not zero, for all inputs: the checked evaluation always yields
the value of the function.  In the branch `1 + 2*a0*k > 0` the divisor
`1 + a0*k` is greater than `1/2`, and `m_2pi/|k|` is evaluated only under
`m_2pi ≤ |k|*(L-tmp)`, which forces `|k| > 0`; in the other branch `k ≠ 0`, so
that `1/k`, `-om/k` and `m_2pi/|k|` have non-zero divisors. -/
theorem projectPointOnCircle_divisions_guarded [LinearOrderedField K]
    (Atanc : K → K) (atan2 : K → K → K) (m_pi m_2pi x0 y0 c0 s0 k L qx qy : K)
    (h2pi : 0 < m_2pi) :
    projectPointOnCircle_checked Atanc atan2 m_pi m_2pi x0 y0 c0 s0 k L qx qy
      = some (projectPointOnCircle Atanc atan2 m_pi m_2pi x0 y0 c0 s0 k L qx qy) ∧
    (1 + 2 * (projectPointOnCircle_a0 x0 y0 c0 s0 qx qy * k) > 0 →
      1 / 2 < 1 + projectPointOnCircle_a0 x0 y0 c0 s0 qx qy * k) ∧
    (∀ tmp : K, m_2pi ≤ |k| * (L - tmp) → 0 < |k|) ∧
    (¬ 1 + 2 * (projectPointOnCircle_a0 x0 y0 c0 s0 qx qy * k) > 0 →
      k ≠ 0 ∧ |k| ≠ 0) := by
  have hfirst : 1 + 2 * (projectPointOnCircle_a0 x0 y0 c0 s0 qx qy * k) > 0 →
      1 / 2 < 1 + projectPointOnCircle_a0 x0 y0 c0 s0 qx qy * k := by
    intro h
    linarith
  have habs : ∀ tmp : K, m_2pi ≤ |k| * (L - tmp) → 0 < |k| := by
    intro tmp h
    rcases (abs_nonneg k).lt_or_eq with hpos | hzero
    · exact hpos
    · rw [← hzero, zero_mul] at h
      exact absurd h (not_le.mpr h2pi)
  have hsecond : ¬ 1 + 2 * (projectPointOnCircle_a0 x0 y0 c0 s0 qx qy * k) > 0 →
      k ≠ 0 ∧ |k| ≠ 0 := by
    intro h
    have hk : k ≠ 0 := by
      intro hk
      apply h
      rw [hk]
      norm_num
    exact ⟨hk, abs_ne_zero.mpr hk⟩
  refine ⟨?_, hfirst, habs, hsecond⟩
  by_cases hb : 1 + 2 * (projectPointOnCircle_a0 x0 y0 c0 s0 qx qy * k) > 0
  · have hden : (1 + projectPointOnCircle_a0 x0 y0 c0 s0 qx qy * k) ≠ 0 := by
      have := hfirst hb
      intro h0
      rw [h0] at this
      norm_num at this
    simp only [projectPointOnCircle_a0] at hb hden
    simp only [projectPointOnCircle_checked, projectPointOnCircle, checked_div,
      hb, hden, if_true, if_false, Option.bind_eq_bind, Option.some_bind,
      Option.pure_def]
    split_ifs with h1 h2 h3
    · exact absurd h3 (ne_of_gt (habs _ h2))
    · rfl
    · rfl
    · rfl
  · obtain ⟨hk, hak⟩ := hsecond hb
    simp only [projectPointOnCircle_a0] at hb
    simp only [projectPointOnCircle_checked, projectPointOnCircle, checked_div,
      hb, hk, hak, if_false, Option.bind_eq_bind, Option.some_bind,
      Option.pure_def]
    split_ifs <;> rfl

/-- Witness of C26: `m_2pi = 6`, base point `(0,0)`, direction `(1,0)`,
`k = 1`, `L = 7` and the point `(-1,0)`: the checked evaluation yields the
value of the function. -/
theorem projectPointOnCircle_divisions_guarded_witness :
    (0 : ℚ) < 6 ∧
    projectPointOnCircle_checked (fun _ => (1 : ℚ)) (fun _ _ => 0) 3 6 0 0 1 0 1 7
        (-1) 0
      = some (projectPointOnCircle (fun _ => (1 : ℚ)) (fun _ _ => 0) 3 6 0 0 1 0
          1 7 (-1) 0) :=
  ⟨by norm_num,
    (projectPointOnCircle_divisions_guarded (fun _ => (1 : ℚ)) (fun _ _ => 0) 3 6
      0 0 1 0 1 7 (-1) 0 (by norm_num)).1⟩

/-- C27: in the second branch of `projectPointOnCircle` (`1 + 2*a0*k ≤ 0`),
with `m_pi > 0`, `m_2pi = 2*m_pi` and `atan2` ranging over `(-m_pi, m_pi]`, the
returned arclength lies in `[0, m_2pi/|k|]`, for `k > 0` and `k < 0` alike, and
`ss ≤ m_2pi/|k|` whenever the test `ss > t` is reached, so the correction
`else if ( ss > t ) ss += t` is never executed: the value is `ss + t` when
`ss < 0` and `ss` otherwise. -/
theorem projectPointOnCircle_second_branch_range [LinearOrderedField K]
    (Atanc : K → K) (atan2 : K → K → K) (m_pi m_2pi x0 y0 c0 s0 k L qx qy : K)
    (hpi : 0 < m_pi) (h2pi : m_2pi = 2 * m_pi)
    (hatan2 : ∀ y x : K, -m_pi < atan2 y x ∧ atan2 y x ≤ m_pi)
    (hbranch : 1 + 2 * (projectPointOnCircle_a0 x0 y0 c0 s0 qx qy * k) ≤ 0) :
    0 ≤ projectPointOnCircle Atanc atan2 m_pi m_2pi x0 y0 c0 s0 k L qx qy ∧
    projectPointOnCircle Atanc atan2 m_pi m_2pi x0 y0 c0 s0 k L qx qy
      ≤ m_2pi / |k| ∧
    projectPointOnCircle_ss atan2 m_pi x0 y0 c0 s0 k qx qy ≤ m_2pi / |k| ∧
    projectPointOnCircle Atanc atan2 m_pi m_2pi x0 y0 c0 s0 k L qx qy
      = (if projectPointOnCircle_ss atan2 m_pi x0 y0 c0 s0 k qx qy < 0 then
          projectPointOnCircle_ss atan2 m_pi x0 y0 c0 s0 k qx qy + m_2pi / |k|
        else projectPointOnCircle_ss atan2 m_pi x0 y0 c0 s0 k qx qy) := by
  have hnb : ¬ 1 + 2 * (projectPointOnCircle_a0 x0 y0 c0 s0 qx qy * k) > 0 :=
    not_lt.mpr hbranch
  have hk : k ≠ 0 := by
    intro hk
    rw [hk] at hbranch
    norm_num at hbranch
  obtain ⟨hlo, hhi⟩ := hatan2 (projectPointOnCircle_b0 x0 y0 c0 s0 qx qy)
    (projectPointOnCircle_a0 x0 y0 c0 s0 qx qy + 1 / k)
  have hss : projectPointOnCircle_ss atan2 m_pi x0 y0 c0 s0 k qx qy ≤ m_2pi / |k| ∧
      (projectPointOnCircle_ss atan2 m_pi x0 y0 c0 s0 k qx qy < 0 →
        0 ≤ projectPointOnCircle_ss atan2 m_pi x0 y0 c0 s0 k qx qy + m_2pi / |k|) := by
    rcases lt_or_gt_of_ne hk with hneg | hpos
    · have hnk : 0 < -k := neg_pos.mpr hneg
      have hval : projectPointOnCircle_ss atan2 m_pi x0 y0 c0 s0 k qx qy
          = (atan2 (projectPointOnCircle_b0 x0 y0 c0 s0 qx qy)
              (projectPointOnCircle_a0 x0 y0 c0 s0 qx qy + 1 / k) + m_pi) / -k := by
        simp only [projectPointOnCircle_ss, if_pos hneg]
        rw [neg_div, ← div_neg]
      rw [hval, abs_of_neg hneg]
      constructor
      · rw [div_le_div_iff_of_pos_right hnk, h2pi]
        linarith
      · intro hlt
        have : 0 ≤ (atan2 (projectPointOnCircle_b0 x0 y0 c0 s0 qx qy)
            (projectPointOnCircle_a0 x0 y0 c0 s0 qx qy + 1 / k) + m_pi) / -k :=
          div_nonneg (by linarith) hnk.le
        exact absurd hlt (not_lt.mpr this)
    · have hval : projectPointOnCircle_ss atan2 m_pi x0 y0 c0 s0 k qx qy
          = -atan2 (projectPointOnCircle_b0 x0 y0 c0 s0 qx qy)
              (projectPointOnCircle_a0 x0 y0 c0 s0 qx qy + 1 / k) / k := by
        simp only [projectPointOnCircle_ss, if_neg (not_lt.mpr hpos.le)]
      rw [hval, abs_of_pos hpos]
      constructor
      · rw [div_le_div_iff_of_pos_right hpos, h2pi]
        linarith
      · intro _
        rw [← add_div]
        exact div_nonneg (by rw [h2pi]; linarith) hpos.le
  obtain ⟨hle, hwrap⟩ := hss
  have hval : projectPointOnCircle Atanc atan2 m_pi m_2pi x0 y0 c0 s0 k L qx qy
      = (if projectPointOnCircle_ss atan2 m_pi x0 y0 c0 s0 k qx qy < 0 then
          projectPointOnCircle_ss atan2 m_pi x0 y0 c0 s0 k qx qy + m_2pi / |k|
        else projectPointOnCircle_ss atan2 m_pi x0 y0 c0 s0 k qx qy) := by
    rw [projectPointOnCircle_second Atanc atan2 m_pi m_2pi x0 y0 c0 s0 k L qx qy hnb,
      if_neg (not_lt.mpr hle)]
  refine ⟨?_, ?_, hle, hval⟩
  · rw [hval]
    split_ifs with h
    · exact hwrap h
    · exact not_lt.mp h
  · rw [hval]
    split_ifs with h
    · linarith
    · exact hle

/-- Witness of C27: over the reals, with `m_pi = π`, `m_2pi = 2π` and
`atan2 y x` the argument of `x + y i`, which lies in `(-π, π]`; base point
`(0,0)`, direction `(1,0)`, `k = 1` and the point `(0,1)`, the centre of the
circle, for which `1 + 2*a0*k = -1`. -/
theorem projectPointOnCircle_second_branch_range_witness :
    (0 : ℝ) < Real.pi ∧
    (∀ y x : ℝ, -Real.pi < Complex.arg ⟨x, y⟩ ∧ Complex.arg ⟨x, y⟩ ≤ Real.pi) ∧
    1 + 2 * (projectPointOnCircle_a0 (0 : ℝ) 0 1 0 0 1 * 1) ≤ 0 ∧
    0 ≤ projectPointOnCircle (fun _ => 1) (fun y x => Complex.arg ⟨x, y⟩) Real.pi
        (2 * Real.pi) 0 0 1 0 1 7 0 1 ∧
    projectPointOnCircle (fun _ => 1) (fun y x => Complex.arg ⟨x, y⟩) Real.pi
        (2 * Real.pi) 0 0 1 0 1 7 0 1 ≤ 2 * Real.pi / |1| :=
  have hat : ∀ y x : ℝ,
      -Real.pi < Complex.arg ⟨x, y⟩ ∧ Complex.arg ⟨x, y⟩ ≤ Real.pi :=
    fun y x => ⟨Complex.neg_pi_lt_arg _, Complex.arg_le_pi _⟩
  have hb : 1 + 2 * (projectPointOnCircle_a0 (0 : ℝ) 0 1 0 0 1 * 1) ≤ 0 := by
    norm_num [projectPointOnCircle_a0]
  have h := projectPointOnCircle_second_branch_range (fun _ => (1 : ℝ))
    (fun y x => Complex.arg ⟨x, y⟩) Real.pi (2 * Real.pi) 0 0 1 0 1 7 0 1
    Real.pi_pos rfl hat hb
  ⟨Real.pi_pos, hat, hb, h.1, h.2.1⟩

end G2lib
